import Mathlib

/-!
Verification of the Loxone MCP server core (connection lifecycle,
state cache, command dispatch, device-kind registry) against its
natural-language specification.

The TypeScript sources are shallowly embedded: JS runtime values are the
inductive type JSVal, JS Map objects become association lists, object
identity (needed for the shallow-copy semantics of the state cache
snapshot) is modelled with an explicit heap of StateValue objects, and
each control class's availableControlCommands / buildControlCommand
methods are translated branch by branch.
-/

namespace Loxone

/-- JS runtime values as they appear in the command/state layer.
Numbers are modelled by integers (the claims only exercise integral
values; rendering, truthiness and bound checks agree with JS there). -/
inductive JSVal where
  | undef
  | null
  | num (n : Int)
  | str (s : String)
  | boolean (b : Bool)
deriving DecidableEq, Repr

/-- JS typeof value === number test. -/
def JSVal.isNum : JSVal → Bool
  | .num _ => true
  | _ => false

/-- JS truthiness (the `!!value` and `if (value)` tests in the sources). -/
def jsTruthy : JSVal → Bool
  | .undef => false
  | .null => false
  | .num n => n != 0
  | .str s => s ≠ ""
  | .boolean b => b

/-- Digit characters for rendering natural numbers. -/
def digitChar (n : Nat) : Char :=
  "0123456789".data.getD (n % 10) '0'

/-- Decimal digits of a natural number, most significant first. -/
def natDigits (n : Nat) : List Char :=
  if h : n < 10 then [digitChar n]
  else natDigits (n / 10) ++ [digitChar (n % 10)]
decreasing_by
  exact Nat.div_lt_self (by omega) (by omega)

/-- Decimal rendering of a natural number. -/
def natStr (n : Nat) : String :=
  ⟨natDigits n⟩

/-- Character list of the decimal rendering of an integer. -/
def intChars (n : Int) : List Char :=
  if n < 0 then '-' :: natDigits n.natAbs else natDigits n.natAbs

/-- Decimal rendering of an integer; this models the JS template
interpolation of an (integral) number value. -/
def intStr (n : Int) : String :=
  ⟨intChars n⟩

/-- JS String(value) / template-literal interpolation for our values. -/
def jsToString : JSVal → String
  | .undef => "undefined"
  | .null => "null"
  | .num n => intStr n
  | .str s => s
  | .boolean b => if b then "true" else "false"

/-- The regex replace that removes all parentheses from a value:
value.toString().replace(slash-bracket-()-bracket-slash-g, ''). -/
def stripParens (s : String) : String :=
  ⟨s.data.filter (fun c => c ≠ '(' ∧ c ≠ ')')⟩

/-- digitChar always yields one of the ten decimal digit characters. -/
theorem digitChar_mem_digits (n : Nat) : digitChar n ∈ "0123456789".data := by
  have h : n % 10 < ("0123456789".data).length := by
    have := Nat.mod_lt n (show 0 < 10 by norm_num)
    simpa using this
  rw [digitChar, List.getD_eq_get _ _ h]
  exact List.get_mem _ _ _

/-- Every character produced by natDigits is a decimal digit. -/
theorem natDigits_subset (n : Nat) :
    ∀ c ∈ natDigits n, c ∈ "0123456789".data := by
  induction n using Nat.strong_induction_on with
  | _ n ih =>
    intro c hc
    rw [natDigits] at hc
    by_cases h : n < 10
    · simp only [h, dif_pos, List.mem_singleton] at hc
      subst hc
      exact digitChar_mem_digits n
    · simp only [h, dif_neg, not_false_iff, List.mem_append, List.mem_singleton] at hc
      rcases hc with hc | hc
      · exact ih (n / 10) (Nat.div_lt_self (by omega) (by omega)) c hc
      · subst hc
        exact digitChar_mem_digits (n % 10)

/-- Every character of intStr is a digit or the minus sign. -/
theorem intStr_subset (n : Int) :
    ∀ c ∈ (intStr n).data, c ∈ "-0123456789".data := by
  intro c hc
  have hc' : c ∈ intChars n := hc
  rw [intChars] at hc'
  have hdig : ∀ d ∈ natDigits n.natAbs, d ∈ "-0123456789".data := by
    intro d hd
    have := natDigits_subset n.natAbs d hd
    simp at this ⊢
    tauto
  by_cases h : n < 0
  · rw [if_pos h] at hc'
    rcases List.mem_cons.mp hc' with h1 | h1
    · simp [h1]
    · exact hdig c h1
  · rw [if_neg h] at hc'
    exact hdig c hc'

/-! Path-segment view of wire strings.  The outbound command grammar of
section 6 is a slash-separated path, so we split on the slash character
and reason about the resulting segments. -/

/-- Split a character list at every slash, keeping empty segments
(the semantics of String.splitOn for a single-character separator). -/
def splitSlash : List Char → List (List Char)
  | [] => [[]]
  | c :: rest =>
    if c = '/' then [] :: splitSlash rest
    else
      match splitSlash rest with
      | [] => [[c]]
      | s :: ss => (c :: s) :: ss

/-- splitSlash never returns the empty list of segments. -/
theorem splitSlash_ne_nil (l : List Char) : splitSlash l ≠ [] := by
  cases l with
  | nil => simp [splitSlash]
  | cons c rest =>
    rw [splitSlash]
    by_cases h : c = '/'
    · simp [h]
    · simp only [h, if_neg, not_false_iff]
      cases splitSlash rest <;> simp

/-- Splitting a concatenation whose junction is a slash splits each
part independently. -/
theorem splitSlash_append (a b : List Char) :
    splitSlash (a ++ '/' :: b) = splitSlash a ++ splitSlash b := by
  induction a with
  | nil => simp [splitSlash]
  | cons c rest ih =>
    by_cases h : c = '/'
    · subst h
      simp only [List.cons_append]
      rw [splitSlash, if_pos rfl, ih, splitSlash, if_pos rfl]
      rfl
    · simp only [List.cons_append]
      rw [splitSlash, if_neg h, ih]
      rw [splitSlash, if_neg h]
      rcases h1 : splitSlash rest with _ | ⟨s, ss⟩
      · exact absurd h1 (splitSlash_ne_nil rest)
      · simp

/-- A slash-free character list is a single segment. -/
theorem splitSlash_of_no_slash (l : List Char) (h : '/' ∉ l) :
    splitSlash l = [l] := by
  induction l with
  | nil => rfl
  | cons c rest ih =>
    have hc : c ≠ '/' := fun hx => h (hx ▸ List.mem_cons_self c rest)
    have hr : '/' ∉ rest := fun hx => h (List.mem_cons_of_mem c hx)
    rw [splitSlash, if_neg hc, ih hr]

/-- The wire command head: jdev/sps/io/(target id)/(tail). -/
def wire (target tail : String) : String :=
  "jdev/sps/io/" ++ target ++ "/" ++ tail

/-- The target id appears as a path segment of its wire command exactly
once, provided the id is slash-free, is none of the three fixed head
segments, and does not collide with a segment of the tail. -/
theorem wire_embeds_once (target tail : String)
    (h1 : '/' ∉ target.data)
    (h2 : target.data ≠ "jdev".data ∧ target.data ≠ "sps".data ∧
          target.data ≠ "io".data)
    (h3 : target.data ∉ splitSlash tail.data) :
    (splitSlash (wire target tail).data).count target.data = 1 := by
  have hdata : (wire target tail).data =
      "jdev/sps/io".data ++ '/' :: (target.data ++ '/' :: tail.data) := by
    simp [wire, String.data_append]
  rw [hdata, splitSlash_append, splitSlash_append,
      splitSlash_of_no_slash target.data h1]
  have hhead : splitSlash "jdev/sps/io".data =
      ["jdev".data, "sps".data, "io".data] := by decide
  rw [hhead]
  rw [List.count_append, List.count_append]
  have c1 : List.count target.data ["jdev".data, "sps".data, "io".data] = 0 := by
    rw [List.count_eq_zero]
    intro hmem
    simp only [List.mem_cons, List.not_mem_nil, or_false] at hmem
    rcases hmem with h | h | h
    · exact h2.1 h
    · exact h2.2.1 h
    · exact h2.2.2 h
  have c2 : List.count target.data [target.data] = 1 := by simp
  have c3 : List.count target.data (splitSlash tail.data) = 0 :=
    List.count_eq_zero.mpr h3
  rw [c1, c2, c3]

/-! State cache (services/StateManager.ts).

The JS Map stores references to StateValue objects.  Because the claims
distinguish entry-level mutation of a snapshot map from in-place
mutation of the StateValue objects it contains, object identity is made
explicit: a heap (list of StateValue objects addressed by index) plus a
cache mapping uuid to heap address.  getAll, which the source
implements as new Map(this.stateCache), copies the entries but shares
the objects, so a snapshot is just a copy of the address map. -/

/-- A StateValue object: uuid, value, lastUpdated (types/structure.ts).
Timestamps are abstract naturals supplied by the caller. -/
structure StateValue where
  uuid : String
  value : JSVal
  lastUpdated : Nat
deriving DecidableEq, Repr

/-- Heap addresses of StateValue objects. -/
abbrev Addr := Nat

/-- First-match association lookup (JS Map.get). -/
def lookupRef (l : List (String × Addr)) (k : String) : Option Addr :=
  (l.find? (fun p => p.1 = k)).map (fun p => p.2)

/-- JS Map.set: replace the entry in place if the key exists, else
append the new entry. -/
def setAssoc (l : List (String × Addr)) (k : String) (a : Addr) :
    List (String × Addr) :=
  match l with
  | [] => [(k, a)]
  | (k', a') :: rest =>
    if k' = k then (k, a) :: rest else (k', a') :: setAssoc rest k a

/-- The StateManager world: every Map object in play (the private
stateCache plus any snapshots handed out), the heap of StateValue
objects that the map entries point at, and the index of the Map object
that is the live stateCache. -/
structure StateManager where
  maps : List (List (String × Addr))
  objs : List StateValue
  live : Nat
deriving DecidableEq, Repr

/-- The entries of the live stateCache map. -/
def StateManager.cacheMap (sm : StateManager) : List (String × Addr) :=
  sm.maps.getD sm.live []

/-- StateManager.get: dereference the map entry for the uuid. -/
def StateManager.get (sm : StateManager) (uuid : String) : Option StateValue :=
  (lookupRef sm.cacheMap uuid).bind (fun a => sm.objs.get? a)

/-- StateManager.updateValue: build a fresh StateValue object with the
current timestamp and set it under the uuid (via this.set). -/
def StateManager.updateValue (sm : StateManager) (uuid : String) (v : JSVal)
    (now : Nat) : StateManager :=
  { sm with
    objs := sm.objs ++ [⟨uuid, v, now⟩],
    maps := sm.maps.set sm.live (setAssoc sm.cacheMap uuid sm.objs.length) }

/-- StateManager.getValue: the raw value behind the uuid, undefined
when absent (the optional-chaining in the source). -/
def StateManager.getValue (sm : StateManager) (uuid : String) : JSVal :=
  match sm.get uuid with
  | some sv => sv.value
  | none => (.undef)

/-- StateManager.has. -/
def StateManager.has (sm : StateManager) (uuid : String) : Bool :=
  (lookupRef sm.cacheMap uuid).isSome

/-- StateManager.getAll: new Map(this.stateCache) — allocates a new Map
object holding a copy of the entries; the StateValue objects behind the
entries are shared (shallow copy).  Returns the new world and the index
of the snapshot Map. -/
def StateManager.getAll (sm : StateManager) : StateManager × Nat :=
  ({ sm with maps := sm.maps ++ [sm.cacheMap] }, sm.maps.length)

/-- In-place mutation of a StateValue object through one of its
references (a JS field assignment on a shared object). -/
def mutateValueAt (sm : StateManager) (a : Addr) (v : JSVal) : StateManager :=
  match sm.objs.get? a with
  | some sv => { sm with objs := sm.objs.set a { sv with value := v } }
  | none => sm

/-- Entry-level mutations a caller can apply to a snapshot map:
adding an entry, deleting an entry, replacing an entry's address. -/
inductive SnapOp where
  | ins (k : String) (a : Addr)
  | del (k : String)
  | rep (k : String) (a : Addr)
deriving Repr

/-- Apply one entry-level mutation to a map object. -/
def applySnapOp (s : List (String × Addr)) : SnapOp → List (String × Addr)
  | .ins k a => setAssoc s k a
  | .del k => s.filter (fun p => p.1 ≠ k)
  | .rep k a => setAssoc s k a

/-- Apply one entry-level mutation to the map object at index i. -/
def applySnapOpAt (sm : StateManager) (i : Nat) (op : SnapOp) : StateManager :=
  { sm with maps := sm.maps.set i (applySnapOp (sm.maps.getD i []) op) }

/-- Apply a sequence of entry-level mutations to the map object at
index i. -/
def applySnapOpsAt (sm : StateManager) (i : Nat) (ops : List SnapOp) :
    StateManager :=
  ops.foldl (fun s op => applySnapOpAt s i op) sm

/-- Looking up the key just set yields the new address. -/
theorem lookupRef_setAssoc_self (l : List (String × Addr)) (k : String)
    (a : Addr) : lookupRef (setAssoc l k a) k = some a := by
  induction l with
  | nil => simp [setAssoc, lookupRef, List.find?]
  | cons p rest ih =>
    rcases p with ⟨k', a'⟩
    rw [setAssoc]
    by_cases h : k' = k
    · simp [h, lookupRef, List.find?]
    · simp only [h, if_neg, not_false_iff]
      rw [lookupRef, List.find?]
      have : (decide (k' = k)) = false := by simp [h]
      rw [this]
      exact ih

/-- Reading the just-written index of List.set. -/
theorem getD_set_self {α : Type} (l : List α) (i : Nat) (x d : α)
    (h : i < l.length) : (l.set i x).getD i d = x := by
  induction l generalizing i with
  | nil => simp at h
  | cons a rest ih =>
    cases i with
    | zero => simp [List.set, List.getD]
    | succ n =>
      simp only [List.set, List.getD_cons_succ]
      exact ih n (by simpa using h)

/-- C2: cache read-after-write.  Immediately after
StateManager.updateValue(s, v), get(s) returns a StateValue whose value
field is v (with the write timestamp), and getValue(s) returns v,
whatever the prior contents of the cache. -/
theorem stateManager_read_after_write (sm : StateManager) (s : String)
    (v : JSVal) (now : Nat) (hlive : sm.live < sm.maps.length) :
    (sm.updateValue s v now).get s = some ⟨s, v, now⟩ ∧
    (sm.updateValue s v now).getValue s = v := by
  have hcache : (sm.updateValue s v now).cacheMap =
      setAssoc sm.cacheMap s sm.objs.length := by
    rw [StateManager.updateValue, StateManager.cacheMap]
    exact getD_set_self _ _ _ _ hlive
  have hget : (sm.updateValue s v now).get s = some ⟨s, v, now⟩ := by
    rw [StateManager.get, hcache]
    simp only [lookupRef_setAssoc_self, Option.bind_some]
    show (sm.objs ++ [(⟨s, v, now⟩ : StateValue)]).get? sm.objs.length = _
    exact List.get?_concat_length sm.objs ⟨s, v, now⟩
  exact ⟨hget, by rw [StateManager.getValue, hget]⟩

/-- C2 witness at a concrete state. -/
theorem stateManager_read_after_write_witness :
    (StateManager.get
      (StateManager.updateValue ⟨[[]], [], 0⟩ "s1" (.num 7) 5) "s1" =
        some ⟨"s1", .num 7, 5⟩) ∧
    (StateManager.getValue
      (StateManager.updateValue ⟨[[]], [], 0⟩ "s1" (.num 7) 5) "s1" = .num 7) :=
  stateManager_read_after_write ⟨[[]], [], 0⟩ "s1" (.num 7) 5 (by decide)

/-- Reading any other index of List.set is unchanged. -/
theorem getD_set_ne {α : Type} (l : List α) (i j : Nat) (x d : α)
    (h : i ≠ j) : (l.set i x).getD j d = l.getD j d := by
  induction l generalizing i j with
  | nil => simp [List.set]
  | cons a rest ih =>
    cases i with
    | zero =>
      cases j with
      | zero => exact absurd rfl h
      | succ m => simp [List.set, List.getD_cons_succ]
    | succ n =>
      cases j with
      | zero => simp [List.set, List.getD_cons_zero]
      | succ m =>
        simp only [List.set, List.getD_cons_succ]
        exact ih n m (fun hx => h (by rw [hx]))

/-- Entry-level mutations of a map object other than the live cache
leave the live cache's entries, the object heap and the live index
untouched. -/
theorem applySnapOpsAt_preserves (t : StateManager) (i : Nat)
    (ops : List SnapOp) (h : i ≠ t.live) :
    (applySnapOpsAt t i ops).objs = t.objs ∧
    (applySnapOpsAt t i ops).live = t.live ∧
    (applySnapOpsAt t i ops).cacheMap = t.cacheMap := by
  induction ops generalizing t with
  | nil => exact ⟨rfl, rfl, rfl⟩
  | cons op rest ih =>
    have hstep : (applySnapOpAt t i op).objs = t.objs ∧
        (applySnapOpAt t i op).live = t.live ∧
        (applySnapOpAt t i op).cacheMap = t.cacheMap := by
      refine ⟨rfl, rfl, ?_⟩
      rw [applySnapOpAt, StateManager.cacheMap, StateManager.cacheMap]
      exact getD_set_ne _ _ _ _ _ h
    have hrec := ih (applySnapOpAt t i op) (by rw [hstep.2.1]; exact h)
    rw [applySnapOpsAt, List.foldl_cons] at *
    refine ⟨?_, ?_, ?_⟩
    · rw [show (List.foldl (fun s op => applySnapOpAt s i op) (applySnapOpAt t i op) rest) = applySnapOpsAt (applySnapOpAt t i op) i rest from rfl] at *
      rw [hrec.1, hstep.1]
    · rw [show (List.foldl (fun s op => applySnapOpAt s i op) (applySnapOpAt t i op) rest) = applySnapOpsAt (applySnapOpAt t i op) i rest from rfl] at *
      rw [hrec.2.1, hstep.2.1]
    · rw [show (List.foldl (fun s op => applySnapOpAt s i op) (applySnapOpAt t i op) rest) = applySnapOpsAt (applySnapOpAt t i op) i rest from rfl] at *
      rw [hrec.2.2, hstep.2.2]

/-- C5 (amended): the snapshot returned by getAll is a fresh Map
object, distinct from the live cache, and entry-level mutations of it
(adding, deleting or replacing entries) never change any subsequent
get or getValue on the live cache.  (In-place mutation of the shared
StateValue objects is NOT covered: the copy is shallow, see the
counterexample.) -/
theorem snapshot_entry_isolation (sm : StateManager) (ops : List SnapOp)
    (u : String) (hlive : sm.live < sm.maps.length) :
    (sm.getAll).2 ≠ sm.live ∧
    (applySnapOpsAt (sm.getAll).1 (sm.getAll).2 ops).get u = sm.get u ∧
    (applySnapOpsAt (sm.getAll).1 (sm.getAll).2 ops).getValue u =
      sm.getValue u := by
  have hsnapIdx : (sm.getAll).2 = sm.maps.length := rfl
  have hne : (sm.getAll).2 ≠ sm.live := by
    rw [hsnapIdx]; omega
  have hlive1 : ((sm.getAll).1).live = sm.live := rfl
  have hobjs1 : ((sm.getAll).1).objs = sm.objs := rfl
  have hcache1 : ((sm.getAll).1).cacheMap = sm.cacheMap := by
    rw [StateManager.cacheMap, StateManager.cacheMap]
    show (sm.maps ++ [sm.cacheMap]).getD sm.live [] = _
    exact List.getD_append _ _ _ _ hlive
  have hne1 : (sm.getAll).2 ≠ ((sm.getAll).1).live := by
    rw [hlive1]; exact hne
  have hp := applySnapOpsAt_preserves (sm.getAll).1 (sm.getAll).2 ops hne1
  have hget : (applySnapOpsAt (sm.getAll).1 (sm.getAll).2 ops).get u =
      sm.get u := by
    rw [StateManager.get, StateManager.get, hp.1, hp.2.2, hcache1, hobjs1]
  exact ⟨hne, hget, by rw [StateManager.getValue, StateManager.getValue, hget]⟩

/-- C5 witness: a concrete snapshot, mutated by an insertion, a
deletion and a replacement, leaves live reads unchanged. -/
theorem snapshot_entry_isolation_witness :
    ((⟨[[("s1", 0)]], [⟨"s1", .num 1, 0⟩], 0⟩ : StateManager).getAll).2 ≠ 0 ∧
    (applySnapOpsAt
      ((⟨[[("s1", 0)]], [⟨"s1", .num 1, 0⟩], 0⟩ : StateManager).getAll).1
      ((⟨[[("s1", 0)]], [⟨"s1", .num 1, 0⟩], 0⟩ : StateManager).getAll).2
      [.ins "x" 0, .del "s1", .rep "x" 1]).get "s1" =
      (⟨[[("s1", 0)]], [⟨"s1", .num 1, 0⟩], 0⟩ : StateManager).get "s1" ∧
    (applySnapOpsAt
      ((⟨[[("s1", 0)]], [⟨"s1", .num 1, 0⟩], 0⟩ : StateManager).getAll).1
      ((⟨[[("s1", 0)]], [⟨"s1", .num 1, 0⟩], 0⟩ : StateManager).getAll).2
      [.ins "x" 0, .del "s1", .rep "x" 1]).getValue "s1" =
      (⟨[[("s1", 0)]], [⟨"s1", .num 1, 0⟩], 0⟩ : StateManager).getValue "s1" :=
  snapshot_entry_isolation ⟨[[("s1", 0)]], [⟨"s1", .num 1, 0⟩], 0⟩
    [.ins "x" 0, .del "s1", .rep "x" 1] "s1" (by decide)

/-- C5 counterexample: the snapshot is a shallow copy.  Mutating the
StateValue object referenced by the snapshot's ("s1", 0) entry is
visible through the live cache: getValue("s1") now reports the mutated
value instead of the value it held when the snapshot was taken. -/
theorem snapshot_isolation_counterexample :
    StateManager.getValue
      (mutateValueAt
        ((⟨[[("s1", 0)]], [⟨"s1", .num 1, 0⟩], 0⟩ : StateManager).getAll).1
        0 (.num 2)) "s1" = .num 2 ∧
    StateManager.getValue
      (⟨[[("s1", 0)]], [⟨"s1", .num 1, 0⟩], 0⟩ : StateManager) "s1" =
      .num 1 ∧
    JSVal.num 2 ≠ JSVal.num 1 := by
  refine ⟨?_, ?_, by decide⟩ <;> rfl

/-! Device descriptors and the device-type registry
(types/control-structure.ts, types/structure.ts,
control-types/ControlTypeFactory.ts). -/

/-- A timer mode entry from a room controller descriptor's details. -/
structure TimerMode where
  id : Int
  name : String
deriving DecidableEq, Repr

/-- A sub-control entry of a descriptor (only its type tag is consulted
by the embedded operations). -/
structure LoxoneSubControl where
  type : String
deriving DecidableEq, Repr

/-- The fields of a descriptor's details payload that the embedded
command operations consult.  Numeric bounds are rationals (the source
uses JS numbers; the declared defaults include 0.5 steps). -/
structure ControlDetails where
  min : Option Rat := none
  max : Option Rat := none
  step : Option Rat := none
  format : Option String := none
  outputs : List (Int × String) := []
  timerModes : List TimerMode := []
  masterColor : Option String := none
deriving DecidableEq, Repr

/-- A device descriptor (LoxoneControl). -/
structure LoxoneControl where
  name : String := ""
  type : String
  uuidAction : String := ""
  room : Option String := none
  cat : Option String := none
  states : List (String × String) := []
  details : Option ControlDetails := none
  subControls : List (String × LoxoneSubControl) := []
  statistic : Bool := false
  statisticV2 : Bool := false
deriving DecidableEq, Repr

/-- JS x || d for an optional rational field (0 is falsy). -/
def jsOrRat (o : Option Rat) (d : Rat) : Rat :=
  match o with
  | some v => if v = 0 then d else v
  | none => d

/-- details?.min of a descriptor (undefined when details is absent). -/
def detMin (ctl : LoxoneControl) : Option Rat := ctl.details.bind (fun d => d.min)

/-- details?.max of a descriptor. -/
def detMax (ctl : LoxoneControl) : Option Rat := ctl.details.bind (fun d => d.max)

/-- details?.step of a descriptor. -/
def detStep (ctl : LoxoneControl) : Option Rat := ctl.details.bind (fun d => d.step)

/-- The ControlType enum.  The thirty-one members with a registered
implementation are distinguished constructors; the remaining enum
members carry their tag (they map to the generic fallback), and Unknown
is the result of a failed lookup. -/
inductive ControlType where
  | Switch | Dimmer | EIBDimmer | ColorPicker | ColorPickerV2
  | LightController | LightControllerV2 | Jalousie | Gate | Slider
  | Pushbutton | Alarm | CentralAlarm | Meter | InfoOnlyDigital
  | DigitalInput | InfoOnlyAnalog | Radio | IRoomControllerV2
  | IRoomController | AudioZone | AudioZoneV2 | CentralAudioZone
  | CentralGate | CentralJalousie | CentralWindow | TextState
  | IntercomV2 | Sauna | EnergyManager2 | EnergyFlowMonitor
  | other (tag : String)
  | Unknown
deriving DecidableEq, Repr

/-- The string value of a ControlType enum member. -/
def ControlType.toTag : ControlType → String
  | .Switch => "Switch"
  | .Dimmer => "Dimmer"
  | .EIBDimmer => "EIBDimmer"
  | .ColorPicker => "ColorPicker"
  | .ColorPickerV2 => "ColorPickerV2"
  | .LightController => "LightController"
  | .LightControllerV2 => "LightControllerV2"
  | .Jalousie => "Jalousie"
  | .Gate => "Gate"
  | .Slider => "Slider"
  | .Pushbutton => "Pushbutton"
  | .Alarm => "Alarm"
  | .CentralAlarm => "CentralAlarm"
  | .Meter => "Meter"
  | .InfoOnlyDigital => "InfoOnlyDigital"
  | .DigitalInput => "DigitalInput"
  | .InfoOnlyAnalog => "InfoOnlyAnalog"
  | .Radio => "Radio"
  | .IRoomControllerV2 => "IRoomControllerV2"
  | .IRoomController => "IRoomController"
  | .AudioZone => "AudioZone"
  | .AudioZoneV2 => "AudioZoneV2"
  | .CentralAudioZone => "CentralAudioZone"
  | .CentralGate => "CentralGate"
  | .CentralJalousie => "CentralJalousie"
  | .CentralWindow => "CentralWindow"
  | .TextState => "TextState"
  | .IntercomV2 => "IntercomV2"
  | .Sauna => "Sauna"
  | .EnergyManager2 => "EnergyManager2"
  | .EnergyFlowMonitor => "EnergyFlowMonitor"
  | .other tag => tag
  | .Unknown => "Unknown"

/-- The enum members of types/structure.ts that have no registered
implementation class (the not-yet-implemented block, minus the members
the factory does register). -/
def otherEnumKeys : List String :=
  ["AalEmergency", "AalSmartAlarm", "AlarmChain", "AlarmClock",
   "Application", "CarCharger", "ClimateController", "ClimateControllerUS",
   "Daytimer", "EnergyManager", "EFM", "Fronius", "Heatmixer",
   "Hourcounter", "InfoOnlyText", "Intercom", "Irrigation",
   "LightsceneRGB", "LoadManager", "MailBox", "MsShortcut", "NFCCodeTouch",
   "PoolController", "PowerUnit", "PresenceDetector", "PulseAt", "Remote",
   "Sequential", "SmokeAlarm", "SolarPumpController", "SpotPriceOptimizer",
   "StatusMonitor", "SteakThermo", "SystemScheme", "TextInput",
   "TimedSwitch", "Tracker", "UpDownLeftRightDigital",
   "UpDownLeftRightAnalog", "ValueSelector", "Ventilation", "Wallbox2",
   "WallboxManager", "Webpage", "Window", "WindowMonitor", "ACControl"]

/-- ControlTypeFactory.mapControlType: the alias table (EFM, TextInput,
Webpage) is consulted first, then the direct enum-key lookup; anything
else is Unknown. -/
def mapControlType (ts : String) : ControlType :=
  if ts = "EFM" then .EnergyFlowMonitor
  else if ts = "TextInput" then .TextState
  else if ts = "Webpage" then .TextState
  else if ts = "Switch" then .Switch
  else if ts = "Dimmer" then .Dimmer
  else if ts = "EIBDimmer" then .EIBDimmer
  else if ts = "ColorPicker" then .ColorPicker
  else if ts = "ColorPickerV2" then .ColorPickerV2
  else if ts = "LightController" then .LightController
  else if ts = "LightControllerV2" then .LightControllerV2
  else if ts = "Jalousie" then .Jalousie
  else if ts = "Gate" then .Gate
  else if ts = "Slider" then .Slider
  else if ts = "Pushbutton" then .Pushbutton
  else if ts = "Alarm" then .Alarm
  else if ts = "CentralAlarm" then .CentralAlarm
  else if ts = "Meter" then .Meter
  else if ts = "InfoOnlyDigital" then .InfoOnlyDigital
  else if ts = "DigitalInput" then .DigitalInput
  else if ts = "InfoOnlyAnalog" then .InfoOnlyAnalog
  else if ts = "Radio" then .Radio
  else if ts = "IRoomControllerV2" then .IRoomControllerV2
  else if ts = "IRoomController" then .IRoomController
  else if ts = "AudioZone" then .AudioZone
  else if ts = "AudioZoneV2" then .AudioZoneV2
  else if ts = "CentralAudioZone" then .CentralAudioZone
  else if ts = "CentralGate" then .CentralGate
  else if ts = "CentralJalousie" then .CentralJalousie
  else if ts = "CentralWindow" then .CentralWindow
  else if ts = "TextState" then .TextState
  else if ts = "IntercomV2" then .IntercomV2
  else if ts = "Sauna" then .Sauna
  else if ts = "EnergyManager2" then .EnergyManager2
  else if ts = "EnergyFlowMonitor" then .EnergyFlowMonitor
  else if ts ∈ otherEnumKeys then .other ts
  else .Unknown

/-- The implementation classes of the registry (one constructor per
concrete control-type class, plus the generic fallback carrying the
mapped enum member). -/
inductive Kind where
  | SwitchControl | DimmerControl | EIBDimmerControl | ColorPickerControl
  | ColorPickerV2Control | LightController | LightControllerV2Control
  | JalousieControl | GateControl | SliderControl | PushbuttonControl
  | AlarmControl | CentralAlarmControl | MeterControl
  | InfoOnlyDigitalControl | InfoOnlyAnalogControl | RadioControl
  | IRoomControllerV2Control | AudioZoneControl | AudioZoneV2Control
  | CentralAudioZoneControl | CentralGateControl | CentralJalousieControl
  | CentralWindowControl | TextStateControl | IntercomV2Control
  | SaunaControl | EnergyManager2Control | EnergyFlowMonitorControl
  | GenericControl (t : ControlType)
deriving DecidableEq, Repr

/-- ControlTypeFactory.controlTypeMap: enum member to implementation
class; none for members outside the map. -/
def controlTypeMap : ControlType → Option Kind
  | .Switch => some .SwitchControl
  | .Dimmer => some .DimmerControl
  | .EIBDimmer => some .EIBDimmerControl
  | .ColorPicker => some .ColorPickerControl
  | .ColorPickerV2 => some .ColorPickerV2Control
  | .LightController => some .LightController
  | .LightControllerV2 => some .LightControllerV2Control
  | .Jalousie => some .JalousieControl
  | .Gate => some .GateControl
  | .Slider => some .SliderControl
  | .Pushbutton => some .PushbuttonControl
  | .Alarm => some .AlarmControl
  | .CentralAlarm => some .CentralAlarmControl
  | .Meter => some .MeterControl
  | .InfoOnlyDigital => some .InfoOnlyDigitalControl
  | .DigitalInput => some .InfoOnlyDigitalControl
  | .InfoOnlyAnalog => some .InfoOnlyAnalogControl
  | .Radio => some .RadioControl
  | .IRoomControllerV2 => some .IRoomControllerV2Control
  | .IRoomController => some .IRoomControllerV2Control
  | .AudioZone => some .AudioZoneControl
  | .AudioZoneV2 => some .AudioZoneV2Control
  | .CentralAudioZone => some .CentralAudioZoneControl
  | .CentralGate => some .CentralGateControl
  | .CentralJalousie => some .CentralJalousieControl
  | .CentralWindow => some .CentralWindowControl
  | .TextState => some .TextStateControl
  | .IntercomV2 => some .IntercomV2Control
  | .Sauna => some .SaunaControl
  | .EnergyManager2 => some .EnergyManager2Control
  | .EnergyFlowMonitor => some .EnergyFlowMonitorControl
  | .other _ => none
  | .Unknown => none

/-- ControlTypeFactory.isSupported. -/
def isSupported (ctl : LoxoneControl) : Bool :=
  let t := mapControlType ctl.type
  t ≠ ControlType.Unknown && (controlTypeMap t).isSome

/-- A registered kind: an implementation class reachable through the
controlTypeMap (the generic fallback is not registered). -/
def registeredKind (k : Kind) : Prop :=
  ∃ t, controlTypeMap t = some k

/-! Command metadata (availableControlCommands) and wire-string
construction (buildControlCommand), class by class. -/

/-- An enumValues entry of a setEnum command. -/
structure EnumValue where
  value : Int
  label : String
deriving DecidableEq, Repr

/-- Declared command metadata (the DeviceCommand of the spec). -/
structure ControlCommand where
  name : String
  description : String := ""
  commandType : String
  valueType : Option String := none
  min : Option Rat := none
  max : Option Rat := none
  step : Option Rat := none
  enumValues : List EnumValue := []
deriving DecidableEq, Repr

/-- Shorthand for a pulse command declaration. -/
def pulseCmd (name desc : String) : ControlCommand :=
  { name := name, description := desc, commandType := "pulse" }

/-- String drop by character count (String.substring on our data). -/
def strDropChars (s : String) (n : Nat) : String :=
  ⟨s.data.drop n⟩

/-- String startsWith test on the underlying characters. -/
def strStartsWith (s p : String) : Bool :=
  decide (s.data.take p.data.length = p.data)

/-- The regex test for an all-digits command (Radio backward
compatibility path). -/
def isDigits (s : String) : Bool :=
  !s.data.isEmpty && s.data.all (fun c => c.isDigit)

namespace SwitchControl

/-- SwitchControl.availableControlCommands. -/
def availableControlCommands : List ControlCommand :=
  [pulseCmd "on" "Turn on", pulseCmd "off" "Turn off"]

/-- SwitchControl.buildControlCommand. -/
def buildControlCommand (uuid : String) (command : String) (_v : JSVal) :
    Except String String :=
  if command = "on" ∨ command = "off" then .ok (wire uuid command)
  else .error ("Invalid command " ++ command ++ " for Switch")

end SwitchControl

namespace DimmerControl

/-- DimmerControl.availableControlCommands. -/
def availableControlCommands : List ControlCommand :=
  [pulseCmd "on" "Turn on", pulseCmd "off" "Turn off",
   { name := "setValue", description := "Set brightness",
     commandType := "setValue", valueType := some "number",
     min := some 0, max := some 100, step := some 1 }]

/-- DimmerControl.buildControlCommand. -/
def buildControlCommand (uuid : String) (command : String) (v : JSVal) :
    Except String String :=
  if command = "on" ∨ command = "off" then .ok (wire uuid command)
  else if command = "setValue" ∧ v ≠ .undef then
    .ok (wire uuid (jsToString v))
  else .error ("Invalid command " ++ command ++ " for Dimmer")

end DimmerControl

namespace EIBDimmerControl

/-- EIBDimmerControl.availableControlCommands. -/
def availableControlCommands : List ControlCommand :=
  [pulseCmd "on" "Turn on", pulseCmd "off" "Turn off",
   { name := "setValue", description := "Set brightness level (0-100)",
     commandType := "setValue", valueType := some "number",
     min := some 0, max := some 100, step := some 1 }]

/-- EIBDimmerControl.buildControlCommand. -/
def buildControlCommand (uuid : String) (command : String) (v : JSVal) :
    Except String String :=
  if command = "on" then .ok (wire uuid "on")
  else if command = "off" then .ok (wire uuid "off")
  else if command = "setValue" ∧ v ≠ .undef then
    .ok (wire uuid (jsToString v))
  else .error ("Invalid command " ++ command ++ " for EIBDimmer")

end EIBDimmerControl

namespace ColorPickerControl

/-- ColorPickerControl.availableControlCommands (only hsv is declared;
the on/off and lumitech declarations are commented out in the source). -/
def availableControlCommands : List ControlCommand :=
  [{ name := "hsv",
     description :=
       "Set HSV color. Format: hue,saturation,value (H=0-360, S=0-100, V=0-100)",
     commandType := "hsv", valueType := some "string" }]

/-- ColorPickerControl.buildControlCommand. -/
def buildControlCommand (uuid : String) (command : String) (v : JSVal) :
    Except String String :=
  if command = "on" ∨ command = "off" then .ok (wire uuid command)
  else if command = "hsv" ∧ jsTruthy v then
    .ok (wire uuid ("hsv(" ++ stripParens (jsToString v) ++ ")"))
  else if command = "lumitech" ∧ jsTruthy v then
    .ok (wire uuid ("lumitech(" ++ stripParens (jsToString v) ++ ")"))
  else .error ("Invalid command " ++ command ++ " for ColorPicker")

end ColorPickerControl

namespace ColorPickerV2Control

/-- ColorPickerV2Control.availableControlCommands. -/
def availableControlCommands (ctl : LoxoneControl) : List ControlCommand :=
  [{ name := "hsv",
     description := "Set RGB color. Use 0,100,100 for red, 120,100,100 for green, 240,100,100 for blue",
     commandType := "hsv", valueType := some "string" },
   { name := "temp",
     description := "Set warm/cool white. Use 100,2700 for warm, 100,6500 for cool",
     commandType := "temp", valueType := some "string" },
   { name := "setBrightness",
     description := "Set brightness level from 0 to 100",
     commandType := "setBrightness", valueType := some "number",
     min := some (jsOrRat (detMin ctl) 0), max := some (jsOrRat (detMax ctl) 100),
     step := some (jsOrRat (detStep ctl) (1/2)) },
   { name := "daylight",
     description := "Set daylight mode with brightness (0-100)",
     commandType := "daylight", valueType := some "number",
     min := some (jsOrRat (detMin ctl) 0), max := some (jsOrRat (detMax ctl) 100),
     step := some (jsOrRat (detStep ctl) (1/2)) }]

/-- ColorPickerV2Control.buildControlCommand.  The guards use JS
truthiness; hsv and temp strip parentheses from the value, daylight
interpolates the value verbatim. -/
def buildControlCommand (uuid : String) (command : String) (v : JSVal) :
    Except String String :=
  if command = "setBrightness" ∧ jsTruthy v then
    .ok (wire uuid ("setBrightness/" ++ jsToString v))
  else if command = "hsv" ∧ jsTruthy v then
    .ok (wire uuid ("hsv(" ++ stripParens (jsToString v) ++ ")"))
  else if command = "temp" ∧ jsTruthy v then
    .ok (wire uuid ("temp(" ++ stripParens (jsToString v) ++ ")"))
  else if command = "daylight" ∧ jsTruthy v then
    .ok (wire uuid ("daylight(" ++ jsToString v ++ ")"))
  else .error ("Invalid command " ++ command ++ " for ColorPickerV2")

end ColorPickerV2Control

namespace LightController

/-- LightController.availableControlCommands. -/
def availableControlCommands : List ControlCommand :=
  [pulseCmd "on" "All lights on (scene 9)",
   pulseCmd "off" "All lights off (scene 0)",
   { name := "setScene", description := "Activate a specific scene (0-9)",
     commandType := "setValue", valueType := some "number",
     min := some 0, max := some 9, step := some 1 },
   pulseCmd "plus" "Switch to next scene",
   pulseCmd "minus" "Switch to previous scene"]

/-- LightController.buildControlCommand (learnScene is accepted though
not declared). -/
def buildControlCommand (uuid : String) (command : String) (v : JSVal) :
    Except String String :=
  if command = "on" then .ok (wire uuid "on")
  else if command = "off" then .ok (wire uuid "off")
  else if command = "setScene" ∧ v ≠ .undef then
    .ok (wire uuid (jsToString v))
  else if command = "plus" then .ok (wire uuid "plus")
  else if command = "minus" then .ok (wire uuid "minus")
  else if command = "learnScene" ∧ v ≠ .undef then
    let parts := if jsTruthy v then (jsToString v).splitOn "," else ["", ""]
    let sceneNum := parts.getD 0 ""
    let sceneName := parts.getD 1 ""
    .ok (wire uuid (sceneNum ++ "/learn/" ++ sceneName))
  else .error ("Invalid command " ++ command ++ " for LightController")

end LightController

namespace LightControllerV2Control

/-- LightControllerV2Control.hasColorPicker: a masterColor link in the
details, or any ColorPicker / ColorPickerV2 sub-control. -/
def hasColorPicker (ctl : LoxoneControl) : Bool :=
  (match ctl.details.bind (fun d => d.masterColor) with
   | some s => s ≠ ""
   | none => false) ||
  ctl.subControls.any (fun p =>
    p.2.type = "ColorPicker" || p.2.type = "ColorPickerV2")

/-- The color-picker target resolution inside buildControlCommand:
masterColor when truthy, else the first ColorPickerV2 sub-control. -/
def resolveColorPicker (ctl : LoxoneControl) : Option String :=
  match ctl.details.bind (fun d => d.masterColor) with
  | some s =>
    if s ≠ "" then some s
    else (ctl.subControls.find? (fun p => p.2.type = "ColorPickerV2")).map
      (fun p => p.1)
  | none =>
    (ctl.subControls.find? (fun p => p.2.type = "ColorPickerV2")).map
      (fun p => p.1)

/-- LightControllerV2Control.availableControlCommands. -/
def availableControlCommands (ctl : LoxoneControl) : List ControlCommand :=
  [pulseCmd "on" "Turn on", pulseCmd "off" "Turn off"] ++
  (if hasColorPicker ctl then
    [{ name := "hsv",
       description := "Set RGB color. Use 0,100,100 for red, 120,100,100 for green, 240,100,100 for blue",
       commandType := "hsv", valueType := some "string" },
     { name := "temp",
       description := "Set warm/cool white. Use 100,2700 for warm, 100,6500 for cool",
       commandType := "temp", valueType := some "string" },
     { name := "setBrightness",
       description := "Set brightness level from 0 to 100",
       commandType := "setBrightness", valueType := some "number",
       min := some (jsOrRat (detMin ctl) 0),
       max := some (jsOrRat (detMax ctl) 100),
       step := some (jsOrRat (detStep ctl) (1/2)) }]
   else [])

/-- LightControllerV2Control.buildControlCommand: color commands are
forwarded to the linked color-picker sub-device. -/
def buildControlCommand (ctl : LoxoneControl) (uuid : String)
    (command : String) (v : JSVal) : Except String String :=
  if command = "on" ∨ command = "off" then .ok (wire uuid command)
  else if command = "hsv" ∨ command = "temp" ∨ command = "setBrightness" then
    match resolveColorPicker ctl with
    | some cp =>
      if command = "setBrightness" ∧ jsTruthy v then
        .ok (wire cp ("setBrightness/" ++ jsToString v))
      else if command = "hsv" ∧ jsTruthy v then
        .ok (wire cp ("hsv(" ++ stripParens (jsToString v) ++ ")"))
      else if command = "temp" ∧ jsTruthy v then
        .ok (wire cp ("temp(" ++ stripParens (jsToString v) ++ ")"))
      else .error ("Missing value for " ++ command ++ " command")
    | none =>
      .error ("LightControllerV2 " ++ uuid ++
        " does not have color control capability")
  else .error ("Invalid command " ++ command ++ " for LightControllerV2")

end LightControllerV2Control

namespace JalousieControl

/-- JalousieControl.availableControlCommands. -/
def availableControlCommands (ctl : LoxoneControl) : List ControlCommand :=
  [pulseCmd "up" "Move up", pulseCmd "down" "Move down",
   pulseCmd "stop" "Stop movement",
   { name := "setPosition", description := "Set position",
     commandType := "setValue", valueType := some "number",
     min := some (jsOrRat (detMin ctl) 0), max := some (jsOrRat (detMax ctl) 100),
     step := some (jsOrRat (detStep ctl) (1/2)) }]

/-- JalousieControl.buildControlCommand. -/
def buildControlCommand (uuid : String) (command : String) (v : JSVal) :
    Except String String :=
  if command = "up" ∨ command = "down" ∨ command = "stop" then
    .ok (wire uuid command)
  else if command = "setPosition" ∧ v ≠ .undef then
    .ok (wire uuid (jsToString v))
  else .error ("Invalid command " ++ command ++ " for Jalousie")

end JalousieControl

namespace GateControl

/-- GateControl.availableControlCommands. -/
def availableControlCommands : List ControlCommand :=
  [pulseCmd "open" "Open the gate", pulseCmd "close" "Close the gate",
   pulseCmd "stop" "Stop gate movement"]

/-- GateControl.buildControlCommand. -/
def buildControlCommand (uuid : String) (command : String) (_v : JSVal) :
    Except String String :=
  if command = "open" ∨ command = "close" ∨ command = "stop" then
    .ok (wire uuid command)
  else .error ("Invalid command " ++ command ++ " for Gate")

end GateControl

namespace SliderControl

/-- SliderControl.availableControlCommands. -/
def availableControlCommands (ctl : LoxoneControl) : List ControlCommand :=
  [{ name := "setValue",
     description := "Set value (" ++ toString (jsOrRat (detMin ctl) 0) ++
       "-" ++ toString (jsOrRat (detMax ctl) 100) ++ ")",
     commandType := "setValue", valueType := some "number",
     min := some (jsOrRat (detMin ctl) 0), max := some (jsOrRat (detMax ctl) 100),
     step := some (jsOrRat (detStep ctl) 1) }]

/-- SliderControl.buildControlCommand. -/
def buildControlCommand (uuid : String) (command : String) (v : JSVal) :
    Except String String :=
  if command = "setValue" ∧ v ≠ .undef then
    .ok (wire uuid (jsToString v))
  else .error ("Invalid command " ++ command ++ " for Slider")

end SliderControl

namespace PushbuttonControl

/-- PushbuttonControl.availableControlCommands. -/
def availableControlCommands : List ControlCommand :=
  [pulseCmd "pulse" "Trigger the pushbutton"]

/-- PushbuttonControl.buildControlCommand. -/
def buildControlCommand (uuid : String) (command : String) (_v : JSVal) :
    Except String String :=
  if command = "pulse" then .ok (wire uuid "pulse")
  else .error ("Invalid command " ++ command ++ " for Pushbutton")

end PushbuttonControl

namespace AlarmControl

/-- AlarmControl.availableControlCommands. -/
def availableControlCommands : List ControlCommand :=
  [pulseCmd "arm" "Arm the alarm", pulseCmd "disarm" "Disarm the alarm",
   pulseCmd "acknowledge" "Acknowledge alarm"]

/-- AlarmControl.buildControlCommand. -/
def buildControlCommand (uuid : String) (command : String) (_v : JSVal) :
    Except String String :=
  if command = "arm" ∨ command = "disarm" ∨ command = "acknowledge" then
    .ok (wire uuid command)
  else .error ("Invalid command " ++ command ++ " for Alarm")

end AlarmControl

namespace CentralAlarmControl

/-- CentralAlarmControl.availableControlCommands. -/
def availableControlCommands : List ControlCommand :=
  [pulseCmd "on" "Arm the alarm", pulseCmd "off" "Disarm the alarm",
   pulseCmd "quit" "Quit/acknowledge alarm",
   pulseCmd "delayedOn" "Arm with delay"]

/-- CentralAlarmControl.buildControlCommand. -/
def buildControlCommand (uuid : String) (command : String) (_v : JSVal) :
    Except String String :=
  if command = "on" ∨ command = "off" ∨ command = "quit" ∨
      command = "delayedOn" then
    .ok (wire uuid command)
  else .error ("Invalid command " ++ command ++ " for CentralAlarm")

end CentralAlarmControl

namespace MeterControl

/-- MeterControl.availableControlCommands: meters are read-only. -/
def availableControlCommands : List ControlCommand := []

/-- MeterControl.buildControlCommand: always throws, without naming
the offending command. -/
def buildControlCommand (_uuid : String) (_command : String) (_v : JSVal) :
    Except String String :=
  .error "Meter controls are read-only and have no commands"

end MeterControl

namespace InfoOnlyDigitalControl

/-- InfoOnlyDigitalControl.availableControlCommands: read-only. -/
def availableControlCommands : List ControlCommand := []

/-- InfoOnlyDigitalControl.buildControlCommand. -/
def buildControlCommand (_uuid : String) (_command : String) (_v : JSVal) :
    Except String String :=
  .error "InfoOnlyDigital controls are read-only and have no commands"

end InfoOnlyDigitalControl

namespace InfoOnlyAnalogControl

/-- InfoOnlyAnalogControl.availableControlCommands: read-only. -/
def availableControlCommands : List ControlCommand := []

/-- InfoOnlyAnalogControl.buildControlCommand. -/
def buildControlCommand (_uuid : String) (_command : String) (_v : JSVal) :
    Except String String :=
  .error "InfoOnlyAnalog controls are read-only and have no commands"

end InfoOnlyAnalogControl

namespace RadioControl

/-- RadioControl.availableControlCommands: one select command per
output entry, plus reset. -/
def availableControlCommands (ctl : LoxoneControl) : List ControlCommand :=
  ((ctl.details.map (fun d => d.outputs)).getD []).map (fun p =>
    { name := "select/" ++ intStr p.1,
      description := "Select " ++ p.2,
      commandType := "setValue" }) ++
  [pulseCmd "reset" "Deselect all outputs (All Off)"]

/-- RadioControl.buildControlCommand. -/
def buildControlCommand (uuid : String) (command : String) (_v : JSVal) :
    Except String String :=
  if strStartsWith command "select/" then
    .ok (wire uuid (strDropChars command 7))
  else if command = "reset" then .ok (wire uuid "reset")
  else if isDigits command then .ok (wire uuid command)
  else .error ("Invalid command " ++ command ++ " for Radio. Use select/N or reset")

end RadioControl

namespace IRoomControllerV2Control

/-- IRoomControllerV2Control.availableControlCommands. -/
def availableControlCommands (ctl : LoxoneControl) : List ControlCommand :=
  [{ name := "setTemperature", description := "Set target temperature",
     commandType := "setValue", valueType := some "number",
     min := some (jsOrRat (detMin ctl) 0), max := some (jsOrRat (detMax ctl) 35),
     step := some (jsOrRat (detStep ctl) (1/2)) }] ++
  (let modeOptions := ((ctl.details.map (fun d => d.timerModes)).getD []).map
    (fun m => EnumValue.mk m.id m.name)
   if modeOptions.length > 0 then
     [{ name := "setMode", description := "Set operating mode",
        commandType := "setEnum", enumValues := modeOptions }]
   else [])

/-- IRoomControllerV2Control.buildControlCommand. -/
def buildControlCommand (uuid : String) (command : String) (v : JSVal) :
    Except String String :=
  if command = "setTemperature" ∧ v ≠ .undef then
    .ok (wire uuid ("setComfortTemperature/" ++ jsToString v))
  else if command = "setMode" ∧ v ≠ .undef then
    .ok (wire uuid ("setOperatingMode/" ++ jsToString v))
  else .error ("Invalid command " ++ command ++ " for Room Controller")

end IRoomControllerV2Control

namespace AudioZoneControl

/-- AudioZoneControl.availableControlCommands. -/
def availableControlCommands (ctl : LoxoneControl) : List ControlCommand :=
  [pulseCmd "play" "Start playback", pulseCmd "pause" "Pause playback",
   pulseCmd "stop" "Stop playback", pulseCmd "next" "Next track",
   pulseCmd "previous" "Previous track", pulseCmd "volumeUp" "Increase volume",
   pulseCmd "volumeDown" "Decrease volume",
   { name := "setVolume", description := "Set volume level (0-100)",
     commandType := "setValue", valueType := some "number",
     min := some (jsOrRat (detMin ctl) 0), max := some (jsOrRat (detMax ctl) 100),
     step := some (jsOrRat (detStep ctl) (1/2)) },
   pulseCmd "mute" "Toggle mute"]

/-- AudioZoneControl.buildControlCommand. -/
def buildControlCommand (uuid : String) (command : String) (v : JSVal) :
    Except String String :=
  if command = "play" ∨ command = "pause" ∨ command = "stop" ∨
      command = "next" ∨ command = "previous" ∨ command = "volumeUp" ∨
      command = "volumeDown" ∨ command = "mute" then
    .ok (wire uuid command)
  else if command = "setVolume" ∧ v ≠ .undef then
    .ok (wire uuid ("volume/" ++ jsToString v))
  else .error ("Invalid command " ++ command ++ " for AudioZone")

end AudioZoneControl

namespace AudioZoneV2Control

/-- AudioZoneV2Control.availableControlCommands. -/
def availableControlCommands (ctl : LoxoneControl) : List ControlCommand :=
  [pulseCmd "play" "Play (turns on if needed)", pulseCmd "pause" "Pause",
   pulseCmd "next" "Next track", pulseCmd "prev" "Previous track",
   pulseCmd "volUp" "Volume up", pulseCmd "volDown" "Volume down",
   { name := "volume", description := "Set volume",
     commandType := "setValue", valueType := some "number",
     min := some (jsOrRat (detMin ctl) 0), max := some (jsOrRat (detMax ctl) 100),
     step := some (jsOrRat (detStep ctl) (1/2)) }]

/-- AudioZoneV2Control.buildControlCommand (the error message says
AudioZone, not AudioZoneV2). -/
def buildControlCommand (uuid : String) (command : String) (v : JSVal) :
    Except String String :=
  if command = "play" ∨ command = "pause" ∨ command = "next" ∨
      command = "prev" ∨ command = "volUp" ∨ command = "volDown" then
    .ok (wire uuid command)
  else if command = "volume" ∧ v ≠ .undef then
    .ok (wire uuid ("volume/" ++ jsToString v))
  else .error ("Invalid command " ++ command ++ " for AudioZone")

end AudioZoneV2Control

namespace CentralAudioZoneControl

/-- CentralAudioZoneControl.availableControlCommands. -/
def availableControlCommands : List ControlCommand :=
  [pulseCmd "play" "Play all linked audio zones",
   pulseCmd "pause" "Pause all linked audio zones",
   pulseCmd "volumeUp" "Increase volume on all zones",
   pulseCmd "volumeDown" "Decrease volume on all zones"]

/-- CentralAudioZoneControl.buildControlCommand. -/
def buildControlCommand (uuid : String) (command : String) (_v : JSVal) :
    Except String String :=
  if command = "play" ∨ command = "pause" ∨ command = "volumeUp" ∨
      command = "volumeDown" then
    .ok (wire uuid command)
  else .error ("Invalid command " ++ command ++ " for CentralAudioZone")

end CentralAudioZoneControl

namespace CentralGateControl

/-- CentralGateControl.availableControlCommands. -/
def availableControlCommands : List ControlCommand :=
  [pulseCmd "open" "Open all linked gates",
   pulseCmd "close" "Close all linked gates",
   pulseCmd "stop" "Stop all linked gates"]

/-- CentralGateControl.buildControlCommand. -/
def buildControlCommand (uuid : String) (command : String) (_v : JSVal) :
    Except String String :=
  if command = "open" ∨ command = "close" ∨ command = "stop" then
    .ok (wire uuid command)
  else .error ("Invalid command " ++ command ++ " for CentralGate")

end CentralGateControl

namespace CentralJalousieControl

/-- CentralJalousieControl.availableControlCommands. -/
def availableControlCommands : List ControlCommand :=
  [pulseCmd "fullUp" "Move all blinds fully up",
   pulseCmd "fullDown" "Move all blinds fully down"]

/-- CentralJalousieControl.buildControlCommand. -/
def buildControlCommand (uuid : String) (command : String) (_v : JSVal) :
    Except String String :=
  if command = "fullUp" ∨ command = "fullDown" then
    .ok (wire uuid command)
  else .error ("Invalid command " ++ command ++ " for CentralJalousie")

end CentralJalousieControl

namespace CentralWindowControl

/-- CentralWindowControl.availableControlCommands. -/
def availableControlCommands (ctl : LoxoneControl) : List ControlCommand :=
  [pulseCmd "toggle" "Toggle all windows",
   pulseCmd "fullOpen" "Fully open all windows",
   pulseCmd "fullClose" "Fully close all windows",
   { name := "moveToPosition", description := "Move all windows to position",
     commandType := "setValue", valueType := some "number",
     min := some (jsOrRat (detMin ctl) 0), max := some (jsOrRat (detMax ctl) 100),
     step := some (jsOrRat (detStep ctl) (1/2)) }]

/-- CentralWindowControl.buildControlCommand (open/close with an on/off
value are accepted though not declared). -/
def buildControlCommand (uuid : String) (command : String) (v : JSVal) :
    Except String String :=
  if command = "toggle" ∨ command = "fullOpen" ∨ command = "fullClose" then
    .ok (wire uuid command)
  else if command = "moveToPosition" ∧ v ≠ .undef then
    .ok (wire uuid ("moveToPosition/" ++ jsToString v))
  else if (command = "open" ∨ command = "close") ∧
      (v = .str "on" ∨ v = .str "off") then
    .ok (wire uuid (command ++ "/" ++ jsToString v))
  else .error ("Invalid command " ++ command ++ " for CentralWindow")

end CentralWindowControl

namespace TextStateControl

/-- TextStateControl.availableControlCommands: read-only. -/
def availableControlCommands : List ControlCommand := []

/-- TextStateControl.buildControlCommand: throws without naming the
offending command. -/
def buildControlCommand (_uuid : String) (_command : String) (_v : JSVal) :
    Except String String :=
  .error "TextState controls are read-only"

end TextStateControl

namespace IntercomV2Control

/-- IntercomV2Control.availableControlCommands: none. -/
def availableControlCommands : List ControlCommand := []

/-- IntercomV2Control.buildControlCommand. -/
def buildControlCommand (_uuid : String) (command : String) (_v : JSVal) :
    Except String String :=
  .error ("Invalid command " ++ command ++ " for Intercom")

end IntercomV2Control

namespace SaunaControl

/-- SaunaControl.availableControlCommands. -/
def availableControlCommands : List ControlCommand :=
  [pulseCmd "on" "Turn sauna on", pulseCmd "off" "Turn sauna off",
   pulseCmd "fan-on" "Turn FAN off", pulseCmd "fan-off" "Turn FAN off",
   { name := "setTemperature", description := "Set target temperature",
     commandType := "setValue", valueType := some "number",
     min := some 40, max := some 110, step := some 1 }]

/-- SaunaControl.buildControlCommand (setTemperature falls through to
the default throw unless the value is a number). -/
def buildControlCommand (uuid : String) (command : String) (v : JSVal) :
    Except String String :=
  if command = "on" then .ok (wire uuid "on")
  else if command = "off" then .ok (wire uuid "off")
  else if command = "fan-on" then .ok (wire uuid "fanon")
  else if command = "fan-off" then .ok (wire uuid "fanoff")
  else if command = "setTemperature" ∧ v.isNum then
    .ok (wire uuid ("temp/" ++ jsToString v))
  else .error ("Invalid command " ++ command ++ " for Sauna")

end SaunaControl

namespace EnergyManager2Control

/-- EnergyManager2Control.availableControlCommands: none. -/
def availableControlCommands : List ControlCommand := []

/-- EnergyManager2Control.buildControlCommand. -/
def buildControlCommand (_uuid : String) (command : String) (_v : JSVal) :
    Except String String :=
  .error ("Invalid command " ++ command ++ " for Energy Manager Gen. 2")

end EnergyManager2Control

namespace EnergyFlowMonitorControl

/-- EnergyFlowMonitorControl.availableControlCommands: none. -/
def availableControlCommands : List ControlCommand := []

/-- EnergyFlowMonitorControl.buildControlCommand. -/
def buildControlCommand (_uuid : String) (command : String) (_v : JSVal) :
    Except String String :=
  .error ("Invalid command " ++ command ++ " for Energy Flow Monitor")

end EnergyFlowMonitorControl

namespace GenericControl

/-- GenericControl.availableControlCommands: none declared. -/
def availableControlCommands : List ControlCommand := []

/-- GenericControl.buildControlCommand (pulse and setValue are accepted
on a best-effort basis). -/
def buildControlCommand (t : ControlType) (uuid : String) (command : String)
    (v : JSVal) : Except String String :=
  if command = "pulse" then .ok (wire uuid "pulse")
  else if command = "setValue" ∧ v ≠ .undef then
    .ok (wire uuid (jsToString v))
  else
    .error ("Unknown command " ++ command ++ " for control type " ++ t.toTag)

end GenericControl

/-- Dispatch availableControlCommands through the class table. -/
def Kind.availableControlCommands (k : Kind) (ctl : LoxoneControl) :
    List ControlCommand :=
  match k with
  | .SwitchControl => SwitchControl.availableControlCommands
  | .DimmerControl => DimmerControl.availableControlCommands
  | .EIBDimmerControl => EIBDimmerControl.availableControlCommands
  | .ColorPickerControl => ColorPickerControl.availableControlCommands
  | .ColorPickerV2Control => ColorPickerV2Control.availableControlCommands ctl
  | .LightController => LightController.availableControlCommands
  | .LightControllerV2Control =>
      LightControllerV2Control.availableControlCommands ctl
  | .JalousieControl => JalousieControl.availableControlCommands ctl
  | .GateControl => GateControl.availableControlCommands
  | .SliderControl => SliderControl.availableControlCommands ctl
  | .PushbuttonControl => PushbuttonControl.availableControlCommands
  | .AlarmControl => AlarmControl.availableControlCommands
  | .CentralAlarmControl => CentralAlarmControl.availableControlCommands
  | .MeterControl => MeterControl.availableControlCommands
  | .InfoOnlyDigitalControl => InfoOnlyDigitalControl.availableControlCommands
  | .InfoOnlyAnalogControl => InfoOnlyAnalogControl.availableControlCommands
  | .RadioControl => RadioControl.availableControlCommands ctl
  | .IRoomControllerV2Control =>
      IRoomControllerV2Control.availableControlCommands ctl
  | .AudioZoneControl => AudioZoneControl.availableControlCommands ctl
  | .AudioZoneV2Control => AudioZoneV2Control.availableControlCommands ctl
  | .CentralAudioZoneControl => CentralAudioZoneControl.availableControlCommands
  | .CentralGateControl => CentralGateControl.availableControlCommands
  | .CentralJalousieControl => CentralJalousieControl.availableControlCommands
  | .CentralWindowControl => CentralWindowControl.availableControlCommands ctl
  | .TextStateControl => TextStateControl.availableControlCommands
  | .IntercomV2Control => IntercomV2Control.availableControlCommands
  | .SaunaControl => SaunaControl.availableControlCommands
  | .EnergyManager2Control => EnergyManager2Control.availableControlCommands
  | .EnergyFlowMonitorControl =>
      EnergyFlowMonitorControl.availableControlCommands
  | .GenericControl _ => GenericControl.availableControlCommands

/-- Dispatch buildControlCommand through the class table. -/
def Kind.buildControlCommand (k : Kind) (uuid : String) (ctl : LoxoneControl)
    (command : String) (v : JSVal) : Except String String :=
  match k with
  | .SwitchControl => SwitchControl.buildControlCommand uuid command v
  | .DimmerControl => DimmerControl.buildControlCommand uuid command v
  | .EIBDimmerControl => EIBDimmerControl.buildControlCommand uuid command v
  | .ColorPickerControl => ColorPickerControl.buildControlCommand uuid command v
  | .ColorPickerV2Control =>
      ColorPickerV2Control.buildControlCommand uuid command v
  | .LightController => LightController.buildControlCommand uuid command v
  | .LightControllerV2Control =>
      LightControllerV2Control.buildControlCommand ctl uuid command v
  | .JalousieControl => JalousieControl.buildControlCommand uuid command v
  | .GateControl => GateControl.buildControlCommand uuid command v
  | .SliderControl => SliderControl.buildControlCommand uuid command v
  | .PushbuttonControl => PushbuttonControl.buildControlCommand uuid command v
  | .AlarmControl => AlarmControl.buildControlCommand uuid command v
  | .CentralAlarmControl =>
      CentralAlarmControl.buildControlCommand uuid command v
  | .MeterControl => MeterControl.buildControlCommand uuid command v
  | .InfoOnlyDigitalControl =>
      InfoOnlyDigitalControl.buildControlCommand uuid command v
  | .InfoOnlyAnalogControl =>
      InfoOnlyAnalogControl.buildControlCommand uuid command v
  | .RadioControl => RadioControl.buildControlCommand uuid command v
  | .IRoomControllerV2Control =>
      IRoomControllerV2Control.buildControlCommand uuid command v
  | .AudioZoneControl => AudioZoneControl.buildControlCommand uuid command v
  | .AudioZoneV2Control => AudioZoneV2Control.buildControlCommand uuid command v
  | .CentralAudioZoneControl =>
      CentralAudioZoneControl.buildControlCommand uuid command v
  | .CentralGateControl => CentralGateControl.buildControlCommand uuid command v
  | .CentralJalousieControl =>
      CentralJalousieControl.buildControlCommand uuid command v
  | .CentralWindowControl =>
      CentralWindowControl.buildControlCommand uuid command v
  | .TextStateControl => TextStateControl.buildControlCommand uuid command v
  | .IntercomV2Control => IntercomV2Control.buildControlCommand uuid command v
  | .SaunaControl => SaunaControl.buildControlCommand uuid command v
  | .EnergyManager2Control =>
      EnergyManager2Control.buildControlCommand uuid command v
  | .EnergyFlowMonitorControl =>
      EnergyFlowMonitorControl.buildControlCommand uuid command v
  | .GenericControl t => GenericControl.buildControlCommand t uuid command v

/-- A constructed control instance: the class, its uuid, its
descriptor, and the state-cache snapshot its constructor received. -/
structure ControlInstance where
  kind : Kind
  uuid : String
  control : LoxoneControl
  stateCache : List (String × Addr)
deriving Repr

/-- ControlTypeFactory.create: map the type tag, pick the registered
class, or fall back to the generic class carrying the mapped member. -/
def ControlTypeFactory.create (uuid : String) (ctl : LoxoneControl)
    (stateCache : List (String × Addr)) : ControlInstance :=
  let t := mapControlType ctl.type
  match controlTypeMap t with
  | some k => ⟨k, uuid, ctl, stateCache⟩
  | none => ⟨.GenericControl t, uuid, ctl, stateCache⟩

/-- Instance-level buildControlCommand (the abstract contract). -/
def ControlInstance.buildControlCommand (inst : ControlInstance)
    (command : String) (v : JSVal) : Except String String :=
  inst.kind.buildControlCommand inst.uuid inst.control command v

/-- Instance-level availableControlCommands. -/
def ControlInstance.availableControlCommands (inst : ControlInstance) :
    List ControlCommand :=
  inst.kind.availableControlCommands inst.control

/-! Validity of a value with respect to declared command metadata, as
the spec's round-trip property reads it: no value for pulse commands,
a declared enum member for setEnum commands, a number within the
declared min/max bounds for number-valued commands, any string for
string-valued commands, and no value for commands that declare no
value type. -/

/-- A value valid for a declared command per its metadata. -/
def validValue (c : ControlCommand) (v : JSVal) : Prop :=
  if c.commandType = "pulse" then v = .undef
  else if c.enumValues ≠ [] then ∃ e ∈ c.enumValues, v = .num e.value
  else
    match c.valueType with
    | some "number" =>
      ∃ n : Int, v = .num n ∧
        (match c.min with | some m => m ≤ (n : Rat) | none => True) ∧
        (match c.max with | some m => (n : Rat) ≤ m | none => True)
    | some "string" => ∃ s : String, v = .str s
    | _ => v = (.undef)

/-- The amendment's extra guard, narrowed to exactly where the source
tests !!value: the two color-picker kinds guard every build with JS
truthiness, so only for them must the supplied value be truthy (zero
and the empty string are rejected there); every other kind checks
value !== undefined and accepts valid falsy values such as 0. -/
def truthyOK (k : Kind) (v : JSVal) : Prop :=
  k = Kind.ColorPickerControl ∨ k = Kind.ColorPickerV2Control →
    jsTruthy v = true

/-! The section-6 grammar, viewed from the tail after
jdev/sps/io/(id)/. -/

/-- A bare path token: no slash and no parentheses. -/
def bareTok (t : String) : Bool :=
  t.data.all (fun c => c ≠ '/' ∧ c ≠ '(' ∧ c ≠ ')')

/-- A parenthesis-free csv payload. -/
def parenFree (t : String) : Bool :=
  t.data.all (fun c => c ≠ '(' ∧ c ≠ ')')

/-- The tail shapes of the outbound grammar: a bare token (a command
name or a direct scalar value), command-slash-value, or a composite
command with a parenthesised csv payload. -/
def grammarTail (t : String) : Prop :=
  bareTok t = true ∨
  (∃ w v, bareTok w = true ∧ bareTok v = true ∧ t = w ++ "/" ++ v) ∨
  (∃ w s, bareTok w = true ∧ parenFree s = true ∧ t = w ++ "(" ++ s ++ ")")

/-- The round-trip conclusion for one command: the wire string is the
head plus a grammar-shaped tail, and the target id occurs exactly once
as a path segment whenever it cannot collide with the fixed head
segments or the tail. -/
def GrammarOk (target tail : String) : Prop :=
  grammarTail tail ∧
  ('/' ∉ target.data → target.data ≠ "jdev".data → target.data ≠ "sps".data →
   target.data ≠ "io".data → target.data ∉ splitSlash tail.data →
   (splitSlash (wire target tail).data).count target.data = 1)

/-- Any grammar-shaped tail gives the full round-trip conclusion. -/
theorem grammarOk_of_tail (target tail : String) (h : grammarTail tail) :
    GrammarOk target tail :=
  ⟨h, fun h1 h2 h3 h4 h5 => wire_embeds_once target tail h1 ⟨h2, h3, h4⟩ h5⟩

/-- intStr renders to a bare token. -/
theorem bareTok_intStr (n : Int) : bareTok (intStr n) = true := by
  rw [bareTok, List.all_eq_true]
  intro c hc
  have h := intStr_subset n c hc
  simp only [String.data] at h
  revert h
  show c ∈ ('-' :: "0123456789".data) → _
  intro h
  rcases List.mem_cons.mp h with h | h
  · subst h; decide
  · have : c ∈ "0123456789".data := h
    revert this
    show c ∈ "0123456789".data → _
    intro h1
    simp only [show "0123456789".data =
      ['0','1','2','3','4','5','6','7','8','9'] from rfl,
      List.mem_cons, List.not_mem_nil, or_false] at h1
    rcases h1 with h1 | h1 | h1 | h1 | h1 | h1 | h1 | h1 | h1 | h1 <;>
      (subst h1; decide)

/-- stripParens leaves no parentheses. -/
theorem parenFree_stripParens (x : String) :
    parenFree (stripParens x) = true := by
  rw [parenFree, stripParens, List.all_eq_true]
  intro c hc
  have h := List.mem_filter.mp hc
  exact h.2

/-- intStr is parenthesis-free. -/
theorem parenFree_intStr (n : Int) : parenFree (intStr n) = true := by
  have h := bareTok_intStr n
  rw [bareTok, List.all_eq_true] at h
  rw [parenFree, List.all_eq_true]
  intro c hc
  have := h c hc
  revert this
  simp only [decide_eq_true_eq]
  tauto

/-- Extracting the payload of a valid value for an enum command. -/
theorem validValue_enum (c : ControlCommand) (v : JSVal)
    (h1 : c.commandType ≠ "pulse") (h2 : c.enumValues ≠ [])
    (hv : validValue c v) : ∃ e ∈ c.enumValues, v = .num e.value := by
  rw [validValue, if_neg h1, if_pos h2] at hv
  exact hv

/-- Extracting the payload of a valid value for a number command. -/
theorem validValue_num (c : ControlCommand) (v : JSVal)
    (h1 : c.commandType ≠ "pulse") (h2 : c.enumValues = [])
    (h3 : c.valueType = some "number") (hv : validValue c v) :
    ∃ n : Int, v = .num n := by
  rw [validValue, if_neg h1,
      if_neg (show ¬(c.enumValues ≠ []) from fun hx => hx h2), h3] at hv
  obtain ⟨n, hn, _, _⟩ := hv
  exact ⟨n, hn⟩

/-- Extracting the payload of a valid value for a string command. -/
theorem validValue_str (c : ControlCommand) (v : JSVal)
    (h1 : c.commandType ≠ "pulse") (h2 : c.enumValues = [])
    (h3 : c.valueType = some "string") (hv : validValue c v) :
    ∃ s : String, v = .str s := by
  rw [validValue, if_neg h1,
      if_neg (show ¬(c.enumValues ≠ []) from fun hx => hx h2), h3] at hv
  exact hv

/-- A bare word is a grammar-shaped tail. -/
theorem grammarOk_word (uuid w : String) (h : bareTok w = true) :
    GrammarOk uuid w :=
  grammarOk_of_tail uuid w (Or.inl h)

/-- A rendered integer is a grammar-shaped tail (direct scalar set). -/
theorem grammarOk_val (uuid : String) (n : Int) : GrammarOk uuid (intStr n) :=
  grammarOk_word uuid (intStr n) (bareTok_intStr n)

/-- command/value is a grammar-shaped tail. -/
theorem grammarOk_cmdVal (uuid w x : String) (hw : bareTok w = true)
    (hx : bareTok x = true) : GrammarOk uuid (w ++ "/" ++ x) :=
  grammarOk_of_tail uuid _ (Or.inr (Or.inl ⟨w, x, hw, hx, rfl⟩))

/-- command(csv) is a grammar-shaped tail. -/
theorem grammarOk_csv (uuid w s : String) (hw : bareTok w = true)
    (hs : parenFree s = true) : GrammarOk uuid (w ++ "(" ++ s ++ ")") :=
  grammarOk_of_tail uuid _ (Or.inr (Or.inr ⟨w, s, hw, hs, rfl⟩))

/-- A string starts with a prefix it is built from. -/
theorem strStartsWith_append (p s : String) : strStartsWith (p ++ s) p = true := by
  rw [strStartsWith, String.data_append]
  simp [List.take_left]

/-- Dropping the select/ head of a built select command. -/
theorem strDropChars_select (x : String) :
    strDropChars ("select/" ++ x) 7 = x := by
  rw [strDropChars, String.data_append]
  apply String.ext
  show List.drop ("select/".data).length ("select/".data ++ x.data) = x.data
  exact List.drop_left _ _

/-- C1 (amended): command grammar round trip.  For every device kind
registered in the ControlTypeFactory map and every command the kind
declares in availableControlCommands(), buildControlCommand(name, v)
with a value valid per the declared metadata — which for the two
color-picker kinds (and only those: their builders guard every branch
with JS truthiness !!value, so zero is rejected there) must in addition
be truthy — and excluding LightControllerV2's color commands (which are
forwarded to the linked color-picker sub-device id instead of the
device's own id), returns a wire string of the section-6 grammar
jdev/sps/io/(id)/(tail) that embeds the device id exactly once as a
path segment. -/
theorem commandGrammarRoundTrip (k : Kind) (ctl : LoxoneControl)
    (uuid : String) (c : ControlCommand) (v : JSVal)
    (hreg : registeredKind k)
    (hc : c ∈ k.availableControlCommands ctl)
    (hv : validValue c v)
    (ht : truthyOK k v)
    (hx : ¬ (k = Kind.LightControllerV2Control ∧
      (c.name = "hsv" ∨ c.name = "temp" ∨ c.name = "setBrightness"))) :
    ∃ tail, k.buildControlCommand uuid ctl c.name v = .ok (wire uuid tail) ∧
      GrammarOk uuid tail := by
  cases k with
  | SwitchControl =>
    simp only [Kind.availableControlCommands,
      SwitchControl.availableControlCommands, pulseCmd, List.mem_cons,
      List.not_mem_nil, or_false] at hc
    rcases hc with rfl | rfl
    · exact ⟨"on", by simp [Kind.buildControlCommand,
        SwitchControl.buildControlCommand], grammarOk_word uuid "on" (by decide)⟩
    · exact ⟨"off", by simp [Kind.buildControlCommand,
        SwitchControl.buildControlCommand], grammarOk_word uuid "off" (by decide)⟩
  | DimmerControl =>
    simp only [Kind.availableControlCommands,
      DimmerControl.availableControlCommands, pulseCmd, List.mem_cons,
      List.not_mem_nil, or_false] at hc
    rcases hc with rfl | rfl | rfl
    · exact ⟨"on", by simp [Kind.buildControlCommand,
        DimmerControl.buildControlCommand], grammarOk_word uuid "on" (by decide)⟩
    · exact ⟨"off", by simp [Kind.buildControlCommand,
        DimmerControl.buildControlCommand], grammarOk_word uuid "off" (by decide)⟩
    · obtain ⟨n, rfl⟩ := validValue_num _ v (by simp) rfl rfl hv
      exact ⟨intStr n, by simp [Kind.buildControlCommand,
        DimmerControl.buildControlCommand, jsToString], grammarOk_val uuid n⟩
  | EIBDimmerControl =>
    simp only [Kind.availableControlCommands,
      EIBDimmerControl.availableControlCommands, pulseCmd, List.mem_cons,
      List.not_mem_nil, or_false] at hc
    rcases hc with rfl | rfl | rfl
    · exact ⟨"on", by simp [Kind.buildControlCommand,
        EIBDimmerControl.buildControlCommand], grammarOk_word uuid "on" (by decide)⟩
    · exact ⟨"off", by simp [Kind.buildControlCommand,
        EIBDimmerControl.buildControlCommand], grammarOk_word uuid "off" (by decide)⟩
    · obtain ⟨n, rfl⟩ := validValue_num _ v (by simp) rfl rfl hv
      exact ⟨intStr n, by simp [Kind.buildControlCommand,
        EIBDimmerControl.buildControlCommand, jsToString], grammarOk_val uuid n⟩
  | ColorPickerControl =>
    simp only [Kind.availableControlCommands,
      ColorPickerControl.availableControlCommands, List.mem_singleton] at hc
    subst hc
    obtain ⟨s, rfl⟩ := validValue_str _ v (by simp) rfl rfl hv
    have htr : jsTruthy (.str s) = true := ht (Or.inl rfl)
    exact ⟨"hsv(" ++ stripParens s ++ ")",
      by simp [Kind.buildControlCommand,
        ColorPickerControl.buildControlCommand, htr, jsToString],
      grammarOk_csv uuid "hsv" _ (by decide) (parenFree_stripParens s)⟩
  | ColorPickerV2Control =>
    simp only [Kind.availableControlCommands,
      ColorPickerV2Control.availableControlCommands, List.mem_cons,
      List.not_mem_nil, or_false] at hc
    rcases hc with rfl | rfl | rfl | rfl
    · obtain ⟨s, rfl⟩ := validValue_str _ v (by simp) rfl rfl hv
      have htr : jsTruthy (.str s) = true := ht (Or.inr rfl)
      exact ⟨"hsv(" ++ stripParens s ++ ")",
        by simp [Kind.buildControlCommand,
          ColorPickerV2Control.buildControlCommand, htr, jsToString],
        grammarOk_csv uuid "hsv" _ (by decide) (parenFree_stripParens s)⟩
    · obtain ⟨s, rfl⟩ := validValue_str _ v (by simp) rfl rfl hv
      have htr : jsTruthy (.str s) = true := ht (Or.inr rfl)
      exact ⟨"temp(" ++ stripParens s ++ ")",
        by simp [Kind.buildControlCommand,
          ColorPickerV2Control.buildControlCommand, htr, jsToString],
        grammarOk_csv uuid "temp" _ (by decide) (parenFree_stripParens s)⟩
    · obtain ⟨n, rfl⟩ := validValue_num _ v (by simp) rfl rfl hv
      have htr : jsTruthy (.num n) = true := ht (Or.inr rfl)
      exact ⟨"setBrightness/" ++ intStr n,
        by simp [Kind.buildControlCommand,
          ColorPickerV2Control.buildControlCommand, htr, jsToString],
        grammarOk_cmdVal uuid "setBrightness" _ (by decide) (bareTok_intStr n)⟩
    · obtain ⟨n, rfl⟩ := validValue_num _ v (by simp) rfl rfl hv
      have htr : jsTruthy (.num n) = true := ht (Or.inr rfl)
      exact ⟨"daylight(" ++ intStr n ++ ")",
        by simp [Kind.buildControlCommand,
          ColorPickerV2Control.buildControlCommand, htr, jsToString],
        grammarOk_csv uuid "daylight" _ (by decide) (parenFree_intStr n)⟩
  | LightController =>
    simp only [Kind.availableControlCommands,
      LightController.availableControlCommands, pulseCmd, List.mem_cons,
      List.not_mem_nil, or_false] at hc
    rcases hc with rfl | rfl | rfl | rfl | rfl
    · exact ⟨"on", by simp [Kind.buildControlCommand,
        LightController.buildControlCommand], grammarOk_word uuid "on" (by decide)⟩
    · exact ⟨"off", by simp [Kind.buildControlCommand,
        LightController.buildControlCommand], grammarOk_word uuid "off" (by decide)⟩
    · obtain ⟨n, rfl⟩ := validValue_num _ v (by simp) rfl rfl hv
      exact ⟨intStr n, by simp [Kind.buildControlCommand,
        LightController.buildControlCommand, jsToString], grammarOk_val uuid n⟩
    · exact ⟨"plus", by simp [Kind.buildControlCommand,
        LightController.buildControlCommand], grammarOk_word uuid "plus" (by decide)⟩
    · exact ⟨"minus", by simp [Kind.buildControlCommand,
        LightController.buildControlCommand], grammarOk_word uuid "minus" (by decide)⟩
  | LightControllerV2Control =>
    simp only [Kind.availableControlCommands,
      LightControllerV2Control.availableControlCommands, pulseCmd,
      List.mem_append, List.mem_cons, List.not_mem_nil, or_false] at hc
    rcases hc with (rfl | rfl) | hcol
    · exact ⟨"on", by simp [Kind.buildControlCommand,
        LightControllerV2Control.buildControlCommand],
        grammarOk_word uuid "on" (by decide)⟩
    · exact ⟨"off", by simp [Kind.buildControlCommand,
        LightControllerV2Control.buildControlCommand],
        grammarOk_word uuid "off" (by decide)⟩
    · by_cases hcp : LightControllerV2Control.hasColorPicker ctl = true
      · rw [if_pos hcp] at hcol
        simp only [List.mem_cons, List.not_mem_nil, or_false] at hcol
        rcases hcol with rfl | rfl | rfl
        · exact absurd ⟨rfl, Or.inl rfl⟩ hx
        · exact absurd ⟨rfl, Or.inr (Or.inl rfl)⟩ hx
        · exact absurd ⟨rfl, Or.inr (Or.inr rfl)⟩ hx
      · rw [if_neg hcp] at hcol
        simp at hcol
  | JalousieControl =>
    simp only [Kind.availableControlCommands,
      JalousieControl.availableControlCommands, pulseCmd, List.mem_cons,
      List.not_mem_nil, or_false] at hc
    rcases hc with rfl | rfl | rfl | rfl
    · exact ⟨"up", by simp [Kind.buildControlCommand,
        JalousieControl.buildControlCommand], grammarOk_word uuid "up" (by decide)⟩
    · exact ⟨"down", by simp [Kind.buildControlCommand,
        JalousieControl.buildControlCommand], grammarOk_word uuid "down" (by decide)⟩
    · exact ⟨"stop", by simp [Kind.buildControlCommand,
        JalousieControl.buildControlCommand], grammarOk_word uuid "stop" (by decide)⟩
    · obtain ⟨n, rfl⟩ := validValue_num _ v (by simp) rfl rfl hv
      exact ⟨intStr n, by simp [Kind.buildControlCommand,
        JalousieControl.buildControlCommand, jsToString], grammarOk_val uuid n⟩
  | GateControl =>
    simp only [Kind.availableControlCommands,
      GateControl.availableControlCommands, pulseCmd, List.mem_cons,
      List.not_mem_nil, or_false] at hc
    rcases hc with rfl | rfl | rfl
    · exact ⟨"open", by simp [Kind.buildControlCommand,
        GateControl.buildControlCommand], grammarOk_word uuid "open" (by decide)⟩
    · exact ⟨"close", by simp [Kind.buildControlCommand,
        GateControl.buildControlCommand], grammarOk_word uuid "close" (by decide)⟩
    · exact ⟨"stop", by simp [Kind.buildControlCommand,
        GateControl.buildControlCommand], grammarOk_word uuid "stop" (by decide)⟩
  | SliderControl =>
    simp only [Kind.availableControlCommands,
      SliderControl.availableControlCommands, List.mem_singleton] at hc
    subst hc
    obtain ⟨n, rfl⟩ := validValue_num _ v (by simp) rfl rfl hv
    exact ⟨intStr n, by simp [Kind.buildControlCommand,
      SliderControl.buildControlCommand, jsToString], grammarOk_val uuid n⟩
  | PushbuttonControl =>
    simp only [Kind.availableControlCommands,
      PushbuttonControl.availableControlCommands, pulseCmd,
      List.mem_singleton] at hc
    subst hc
    exact ⟨"pulse", by simp [Kind.buildControlCommand,
      PushbuttonControl.buildControlCommand],
      grammarOk_word uuid "pulse" (by decide)⟩
  | AlarmControl =>
    simp only [Kind.availableControlCommands,
      AlarmControl.availableControlCommands, pulseCmd, List.mem_cons,
      List.not_mem_nil, or_false] at hc
    rcases hc with rfl | rfl | rfl
    · exact ⟨"arm", by simp [Kind.buildControlCommand,
        AlarmControl.buildControlCommand], grammarOk_word uuid "arm" (by decide)⟩
    · exact ⟨"disarm", by simp [Kind.buildControlCommand,
        AlarmControl.buildControlCommand], grammarOk_word uuid "disarm" (by decide)⟩
    · exact ⟨"acknowledge", by simp [Kind.buildControlCommand,
        AlarmControl.buildControlCommand],
        grammarOk_word uuid "acknowledge" (by decide)⟩
  | CentralAlarmControl =>
    simp only [Kind.availableControlCommands,
      CentralAlarmControl.availableControlCommands, pulseCmd, List.mem_cons,
      List.not_mem_nil, or_false] at hc
    rcases hc with rfl | rfl | rfl | rfl
    · exact ⟨"on", by simp [Kind.buildControlCommand,
        CentralAlarmControl.buildControlCommand], grammarOk_word uuid "on" (by decide)⟩
    · exact ⟨"off", by simp [Kind.buildControlCommand,
        CentralAlarmControl.buildControlCommand], grammarOk_word uuid "off" (by decide)⟩
    · exact ⟨"quit", by simp [Kind.buildControlCommand,
        CentralAlarmControl.buildControlCommand], grammarOk_word uuid "quit" (by decide)⟩
    · exact ⟨"delayedOn", by simp [Kind.buildControlCommand,
        CentralAlarmControl.buildControlCommand],
        grammarOk_word uuid "delayedOn" (by decide)⟩
  | MeterControl =>
    simp [Kind.availableControlCommands,
      MeterControl.availableControlCommands] at hc
  | InfoOnlyDigitalControl =>
    simp [Kind.availableControlCommands,
      InfoOnlyDigitalControl.availableControlCommands] at hc
  | InfoOnlyAnalogControl =>
    simp [Kind.availableControlCommands,
      InfoOnlyAnalogControl.availableControlCommands] at hc
  | RadioControl =>
    simp only [Kind.availableControlCommands,
      RadioControl.availableControlCommands, List.mem_append, List.mem_map,
      pulseCmd, List.mem_cons, List.not_mem_nil, or_false] at hc
    rcases hc with ⟨p, hp, rfl⟩ | rfl
    · refine ⟨intStr p.1, ?_, grammarOk_val uuid p.1⟩
      simp only [Kind.buildControlCommand, RadioControl.buildControlCommand]
      rw [if_pos (strStartsWith_append "select/" (intStr p.1)),
        strDropChars_select]
    · refine ⟨"reset", ?_, grammarOk_word uuid "reset" (by decide)⟩
      simp only [Kind.buildControlCommand, RadioControl.buildControlCommand]
      rw [if_neg (by decide)]
      simp
  | IRoomControllerV2Control =>
    simp only [Kind.availableControlCommands,
      IRoomControllerV2Control.availableControlCommands, List.mem_append,
      List.mem_cons, List.not_mem_nil, or_false] at hc
    rcases hc with rfl | hc
    · obtain ⟨n, rfl⟩ := validValue_num _ v (by simp) rfl rfl hv
      exact ⟨"setComfortTemperature/" ++ intStr n,
        by simp [Kind.buildControlCommand,
          IRoomControllerV2Control.buildControlCommand, jsToString],
        grammarOk_cmdVal uuid "setComfortTemperature" _ (by decide)
          (bareTok_intStr n)⟩
    · by_cases hlen :
        (((ctl.details.map (fun d => d.timerModes)).getD []).map
          (fun m => EnumValue.mk m.id m.name)).length > 0
      · rw [if_pos hlen] at hc
        simp only [List.mem_singleton] at hc
        subst hc
        have hne : (((ctl.details.map (fun d => d.timerModes)).getD []).map
            (fun m => EnumValue.mk m.id m.name)) ≠ [] := by
          intro hnil
          rw [hnil] at hlen
          simp at hlen
        obtain ⟨e, he, rfl⟩ := validValue_enum _ v (by simp) hne hv
        exact ⟨"setOperatingMode/" ++ intStr e.value,
          by simp [Kind.buildControlCommand,
            IRoomControllerV2Control.buildControlCommand, jsToString],
          grammarOk_cmdVal uuid "setOperatingMode" _ (by decide)
            (bareTok_intStr e.value)⟩
      · rw [if_neg hlen] at hc
        simp at hc
  | AudioZoneControl =>
    simp only [Kind.availableControlCommands,
      AudioZoneControl.availableControlCommands, pulseCmd, List.mem_cons,
      List.not_mem_nil, or_false] at hc
    rcases hc with rfl | rfl | rfl | rfl | rfl | rfl | rfl | rfl | rfl
    · exact ⟨"play", by simp [Kind.buildControlCommand,
        AudioZoneControl.buildControlCommand], grammarOk_word uuid "play" (by decide)⟩
    · exact ⟨"pause", by simp [Kind.buildControlCommand,
        AudioZoneControl.buildControlCommand], grammarOk_word uuid "pause" (by decide)⟩
    · exact ⟨"stop", by simp [Kind.buildControlCommand,
        AudioZoneControl.buildControlCommand], grammarOk_word uuid "stop" (by decide)⟩
    · exact ⟨"next", by simp [Kind.buildControlCommand,
        AudioZoneControl.buildControlCommand], grammarOk_word uuid "next" (by decide)⟩
    · exact ⟨"previous", by simp [Kind.buildControlCommand,
        AudioZoneControl.buildControlCommand],
        grammarOk_word uuid "previous" (by decide)⟩
    · exact ⟨"volumeUp", by simp [Kind.buildControlCommand,
        AudioZoneControl.buildControlCommand],
        grammarOk_word uuid "volumeUp" (by decide)⟩
    · exact ⟨"volumeDown", by simp [Kind.buildControlCommand,
        AudioZoneControl.buildControlCommand],
        grammarOk_word uuid "volumeDown" (by decide)⟩
    · obtain ⟨n, rfl⟩ := validValue_num _ v (by simp) rfl rfl hv
      exact ⟨"volume/" ++ intStr n, by simp [Kind.buildControlCommand,
        AudioZoneControl.buildControlCommand, jsToString],
        grammarOk_cmdVal uuid "volume" _ (by decide) (bareTok_intStr n)⟩
    · exact ⟨"mute", by simp [Kind.buildControlCommand,
        AudioZoneControl.buildControlCommand], grammarOk_word uuid "mute" (by decide)⟩
  | AudioZoneV2Control =>
    simp only [Kind.availableControlCommands,
      AudioZoneV2Control.availableControlCommands, pulseCmd, List.mem_cons,
      List.not_mem_nil, or_false] at hc
    rcases hc with rfl | rfl | rfl | rfl | rfl | rfl | rfl
    · exact ⟨"play", by simp [Kind.buildControlCommand,
        AudioZoneV2Control.buildControlCommand], grammarOk_word uuid "play" (by decide)⟩
    · exact ⟨"pause", by simp [Kind.buildControlCommand,
        AudioZoneV2Control.buildControlCommand], grammarOk_word uuid "pause" (by decide)⟩
    · exact ⟨"next", by simp [Kind.buildControlCommand,
        AudioZoneV2Control.buildControlCommand], grammarOk_word uuid "next" (by decide)⟩
    · exact ⟨"prev", by simp [Kind.buildControlCommand,
        AudioZoneV2Control.buildControlCommand], grammarOk_word uuid "prev" (by decide)⟩
    · exact ⟨"volUp", by simp [Kind.buildControlCommand,
        AudioZoneV2Control.buildControlCommand], grammarOk_word uuid "volUp" (by decide)⟩
    · exact ⟨"volDown", by simp [Kind.buildControlCommand,
        AudioZoneV2Control.buildControlCommand],
        grammarOk_word uuid "volDown" (by decide)⟩
    · obtain ⟨n, rfl⟩ := validValue_num _ v (by simp) rfl rfl hv
      exact ⟨"volume/" ++ intStr n, by simp [Kind.buildControlCommand,
        AudioZoneV2Control.buildControlCommand, jsToString],
        grammarOk_cmdVal uuid "volume" _ (by decide) (bareTok_intStr n)⟩
  | CentralAudioZoneControl =>
    simp only [Kind.availableControlCommands,
      CentralAudioZoneControl.availableControlCommands, pulseCmd,
      List.mem_cons, List.not_mem_nil, or_false] at hc
    rcases hc with rfl | rfl | rfl | rfl
    · exact ⟨"play", by simp [Kind.buildControlCommand,
        CentralAudioZoneControl.buildControlCommand],
        grammarOk_word uuid "play" (by decide)⟩
    · exact ⟨"pause", by simp [Kind.buildControlCommand,
        CentralAudioZoneControl.buildControlCommand],
        grammarOk_word uuid "pause" (by decide)⟩
    · exact ⟨"volumeUp", by simp [Kind.buildControlCommand,
        CentralAudioZoneControl.buildControlCommand],
        grammarOk_word uuid "volumeUp" (by decide)⟩
    · exact ⟨"volumeDown", by simp [Kind.buildControlCommand,
        CentralAudioZoneControl.buildControlCommand],
        grammarOk_word uuid "volumeDown" (by decide)⟩
  | CentralGateControl =>
    simp only [Kind.availableControlCommands,
      CentralGateControl.availableControlCommands, pulseCmd, List.mem_cons,
      List.not_mem_nil, or_false] at hc
    rcases hc with rfl | rfl | rfl
    · exact ⟨"open", by simp [Kind.buildControlCommand,
        CentralGateControl.buildControlCommand], grammarOk_word uuid "open" (by decide)⟩
    · exact ⟨"close", by simp [Kind.buildControlCommand,
        CentralGateControl.buildControlCommand], grammarOk_word uuid "close" (by decide)⟩
    · exact ⟨"stop", by simp [Kind.buildControlCommand,
        CentralGateControl.buildControlCommand], grammarOk_word uuid "stop" (by decide)⟩
  | CentralJalousieControl =>
    simp only [Kind.availableControlCommands,
      CentralJalousieControl.availableControlCommands, pulseCmd,
      List.mem_cons, List.not_mem_nil, or_false] at hc
    rcases hc with rfl | rfl
    · exact ⟨"fullUp", by simp [Kind.buildControlCommand,
        CentralJalousieControl.buildControlCommand],
        grammarOk_word uuid "fullUp" (by decide)⟩
    · exact ⟨"fullDown", by simp [Kind.buildControlCommand,
        CentralJalousieControl.buildControlCommand],
        grammarOk_word uuid "fullDown" (by decide)⟩
  | CentralWindowControl =>
    simp only [Kind.availableControlCommands,
      CentralWindowControl.availableControlCommands, pulseCmd, List.mem_cons,
      List.not_mem_nil, or_false] at hc
    rcases hc with rfl | rfl | rfl | rfl
    · exact ⟨"toggle", by simp [Kind.buildControlCommand,
        CentralWindowControl.buildControlCommand],
        grammarOk_word uuid "toggle" (by decide)⟩
    · exact ⟨"fullOpen", by simp [Kind.buildControlCommand,
        CentralWindowControl.buildControlCommand],
        grammarOk_word uuid "fullOpen" (by decide)⟩
    · exact ⟨"fullClose", by simp [Kind.buildControlCommand,
        CentralWindowControl.buildControlCommand],
        grammarOk_word uuid "fullClose" (by decide)⟩
    · obtain ⟨n, rfl⟩ := validValue_num _ v (by simp) rfl rfl hv
      exact ⟨"moveToPosition/" ++ intStr n, by simp [Kind.buildControlCommand,
        CentralWindowControl.buildControlCommand, jsToString],
        grammarOk_cmdVal uuid "moveToPosition" _ (by decide) (bareTok_intStr n)⟩
  | TextStateControl =>
    simp [Kind.availableControlCommands,
      TextStateControl.availableControlCommands] at hc
  | IntercomV2Control =>
    simp [Kind.availableControlCommands,
      IntercomV2Control.availableControlCommands] at hc
  | SaunaControl =>
    simp only [Kind.availableControlCommands,
      SaunaControl.availableControlCommands, pulseCmd, List.mem_cons,
      List.not_mem_nil, or_false] at hc
    rcases hc with rfl | rfl | rfl | rfl | rfl
    · exact ⟨"on", by simp [Kind.buildControlCommand,
        SaunaControl.buildControlCommand], grammarOk_word uuid "on" (by decide)⟩
    · exact ⟨"off", by simp [Kind.buildControlCommand,
        SaunaControl.buildControlCommand], grammarOk_word uuid "off" (by decide)⟩
    · exact ⟨"fanon", by simp [Kind.buildControlCommand,
        SaunaControl.buildControlCommand], grammarOk_word uuid "fanon" (by decide)⟩
    · exact ⟨"fanoff", by simp [Kind.buildControlCommand,
        SaunaControl.buildControlCommand], grammarOk_word uuid "fanoff" (by decide)⟩
    · obtain ⟨n, rfl⟩ := validValue_num _ v (by simp) rfl rfl hv
      exact ⟨"temp/" ++ intStr n, by simp [Kind.buildControlCommand,
        SaunaControl.buildControlCommand, jsToString, JSVal.isNum],
        grammarOk_cmdVal uuid "temp" _ (by decide) (bareTok_intStr n)⟩
  | EnergyManager2Control =>
    simp [Kind.availableControlCommands,
      EnergyManager2Control.availableControlCommands] at hc
  | EnergyFlowMonitorControl =>
    simp [Kind.availableControlCommands,
      EnergyFlowMonitorControl.availableControlCommands] at hc
  | GenericControl t =>
    obtain ⟨t0, ht0⟩ := hreg
    cases t0 <;> simp [controlTypeMap] at ht0

/-- C1 witness: the Dimmer kind with its declared setValue command and
the valid falsy value 0 — accepted, since the truthiness guard applies
only to the color-picker kinds. -/
theorem commandGrammarRoundTrip_witness :
    ∃ tail,
      Kind.buildControlCommand .DimmerControl "aaa-bbb" { type := "Dimmer" }
        "setValue" (.num 0) = .ok (wire "aaa-bbb" tail) ∧
        GrammarOk "aaa-bbb" tail :=
  commandGrammarRoundTrip .DimmerControl { type := "Dimmer" } "aaa-bbb"
    { name := "setValue", description := "Set brightness",
      commandType := "setValue", valueType := some "number",
      min := some 0, max := some 100, step := some 1 }
    (.num 0) ⟨.Dimmer, rfl⟩ (by decide)
    (by rw [validValue]; simp)
    (by rw [truthyOK]; simp) (by simp)

/-- C1 counterexample: the claim as stated fails.  For a default
ColorPickerV2 descriptor, setBrightness is declared with numeric type
and bounds min 0, max 100, so 0 is a valid value; yet
buildControlCommand raises the invalid-command error (the builder tests
JS truthiness), instead of returning a grammar wire string. -/
theorem commandGrammarRoundTrip_counterexample :
    (ControlCommand.mk "setBrightness" "Set brightness level from 0 to 100"
        "setBrightness" (some "number") (some 0) (some 100) (some (1/2)) []) ∈
      Kind.availableControlCommands .ColorPickerV2Control
        { type := "ColorPickerV2" } ∧
    validValue
      (ControlCommand.mk "setBrightness" "Set brightness level from 0 to 100"
        "setBrightness" (some "number") (some 0) (some 100) (some (1/2)) [])
      (.num 0) ∧
    controlTypeMap (mapControlType "ColorPickerV2") =
      some .ColorPickerV2Control ∧
    Kind.buildControlCommand .ColorPickerV2Control "aaa-bbb"
      { type := "ColorPickerV2" } "setBrightness" (.num 0) =
      .error "Invalid command setBrightness for ColorPickerV2" := by
  refine ⟨?_, ?_, rfl, rfl⟩
  · simp [Kind.availableControlCommands,
      ColorPickerV2Control.availableControlCommands, detMin, detMax, detStep,
      jsOrRat]
  rw [validValue]
  simp only [ControlCommand.commandType, ControlCommand.enumValues,
    ControlCommand.valueType]
  rw [if_neg (by decide), if_neg (by simp)]
  exact ⟨0, rfl, by norm_num, by norm_num⟩

/-! Substring machinery for reasoning about error-message contents. -/

/-- Whether hay begins with pat. -/
def startsWithChars : List Char → List Char → Bool
  | _, [] => true
  | [], _ :: _ => false
  | h :: t, p :: ps => h = p && startsWithChars t ps

/-- startsWithChars characterised by an append decomposition. -/
theorem startsWithChars_iff (hay pat : List Char) :
    startsWithChars hay pat = true ↔ ∃ rest, hay = pat ++ rest := by
  induction pat generalizing hay with
  | nil => simp [startsWithChars]
  | cons p ps ih =>
    cases hay with
    | nil =>
      simp [startsWithChars]
    | cons h t =>
      rw [startsWithChars]
      constructor
      · intro hx
        have hx' := Bool.and_eq_true_iff.mp hx
        have h1 : h = p := by simpa using hx'.1
        obtain ⟨rest, hr⟩ := (ih t).mp hx'.2
        exact ⟨rest, by rw [h1, hr]; rfl⟩
      · rintro ⟨rest, hr⟩
        injection hr with h1 h2
        rw [h1]
        simp only [Bool.and_eq_true_iff, decide_eq_true_eq]
        exact ⟨trivial, (ih t).mpr ⟨rest, h2⟩⟩

/-- Whether pat occurs contiguously anywhere in hay. -/
def hasSub : List Char → List Char → Bool
  | [], pat => startsWithChars [] pat
  | h :: t, pat => startsWithChars (h :: t) pat || hasSub t pat

/-- hasSub characterised by an append decomposition. -/
theorem hasSub_iff (hay pat : List Char) :
    hasSub hay pat = true ↔ ∃ a b, hay = a ++ pat ++ b := by
  induction hay with
  | nil =>
    rw [hasSub, startsWithChars_iff]
    constructor
    · rintro ⟨rest, hr⟩
      exact ⟨[], rest, by simpa using hr⟩
    · rintro ⟨a, b, hab⟩
      have ha : a = [] := by
        cases a with
        | nil => rfl
        | cons x xs => simp at hab
      subst ha
      exact ⟨b, by simpa using hab⟩
  | cons h t ih =>
    rw [hasSub, Bool.or_eq_true_iff, startsWithChars_iff, ih]
    constructor
    · rintro (⟨rest, hr⟩ | ⟨a, b, hab⟩)
      · exact ⟨[], rest, by simpa using hr⟩
      · exact ⟨h :: a, b, by rw [hab]; rfl⟩
    · rintro ⟨a, b, hab⟩
      cases a with
      | nil => exact Or.inl ⟨b, by simpa using hab⟩
      | cons x xs =>
        injection hab with h1 h2
        exact Or.inr ⟨xs, b, h2⟩

/-- pat occurs as a substring of hay. -/
def containsStr (hay pat : String) : Prop :=
  hasSub hay.data pat.data = true

instance (hay pat : String) : Decidable (containsStr hay pat) := by
  rw [containsStr]
  infer_instance

/-- An explicit decomposition shows the occurrence. -/
theorem containsStr_intro (a p b : String) : containsStr (a ++ p ++ b) p := by
  rw [containsStr, String.data_append, String.data_append]
  exact (hasSub_iff _ _).mpr ⟨a.data, b.data, rfl⟩

/-- A string contains its own appended tail. -/
theorem containsStr_tail (a p : String) : containsStr (a ++ p) p := by
  rw [containsStr, String.data_append]
  exact (hasSub_iff _ _).mpr ⟨a.data, [], by simp⟩

/-- Occurrence is preserved by appending on the left. -/
theorem containsStr_append_left (s t p : String) (h : containsStr t p) :
    containsStr (s ++ t) p := by
  rw [containsStr, String.data_append]
  rw [containsStr] at h
  obtain ⟨a, b, hab⟩ := (hasSub_iff _ _).mp h
  exact (hasSub_iff _ _).mpr ⟨s.data ++ a, b, by rw [hab]; simp⟩

/-- Occurrence is preserved by appending on the right. -/
theorem containsStr_append_right (s t p : String) (h : containsStr s p) :
    containsStr (s ++ t) p := by
  rw [containsStr, String.data_append]
  rw [containsStr] at h
  obtain ⟨a, b, hab⟩ := (hasSub_iff _ _).mp h
  exact (hasSub_iff _ _).mpr ⟨a, b ++ t.data, by rw [hab]; simp⟩

/-! The accepted command-name set of each kind (the names for which the
builder does not fall through to its invalid-command throw), and the
kind-identifying phrase each builder's error message carries. -/

/-- The command names a kind's buildControlCommand accepts. -/
def acceptedBy (k : Kind) (c : String) : Bool :=
  match k with
  | .SwitchControl => c = "on" || c = "off"
  | .DimmerControl => c = "on" || c = "off" || c = "setValue"
  | .EIBDimmerControl => c = "on" || c = "off" || c = "setValue"
  | .ColorPickerControl =>
      c = "on" || c = "off" || c = "hsv" || c = "lumitech"
  | .ColorPickerV2Control =>
      c = "setBrightness" || c = "hsv" || c = "temp" || c = "daylight"
  | .LightController =>
      c = "on" || c = "off" || c = "setScene" || c = "plus" || c = "minus" ||
      c = "learnScene"
  | .LightControllerV2Control =>
      c = "on" || c = "off" || c = "hsv" || c = "temp" || c = "setBrightness"
  | .JalousieControl =>
      c = "up" || c = "down" || c = "stop" || c = "setPosition"
  | .GateControl => c = "open" || c = "close" || c = "stop"
  | .SliderControl => c = "setValue"
  | .PushbuttonControl => c = "pulse"
  | .AlarmControl => c = "arm" || c = "disarm" || c = "acknowledge"
  | .CentralAlarmControl =>
      c = "on" || c = "off" || c = "quit" || c = "delayedOn"
  | .MeterControl => false
  | .InfoOnlyDigitalControl => false
  | .InfoOnlyAnalogControl => false
  | .RadioControl => strStartsWith c "select/" || c = "reset" || isDigits c
  | .IRoomControllerV2Control => c = "setTemperature" || c = "setMode"
  | .AudioZoneControl =>
      c = "play" || c = "pause" || c = "stop" || c = "next" ||
      c = "previous" || c = "volumeUp" || c = "volumeDown" || c = "mute" ||
      c = "setVolume"
  | .AudioZoneV2Control =>
      c = "play" || c = "pause" || c = "next" || c = "prev" ||
      c = "volUp" || c = "volDown" || c = "volume"
  | .CentralAudioZoneControl =>
      c = "play" || c = "pause" || c = "volumeUp" || c = "volumeDown"
  | .CentralGateControl => c = "open" || c = "close" || c = "stop"
  | .CentralJalousieControl => c = "fullUp" || c = "fullDown"
  | .CentralWindowControl =>
      c = "toggle" || c = "fullOpen" || c = "fullClose" ||
      c = "moveToPosition" || c = "open" || c = "close"
  | .TextStateControl => false
  | .IntercomV2Control => false
  | .SaunaControl =>
      c = "on" || c = "off" || c = "fan-on" || c = "fan-off" ||
      c = "setTemperature"
  | .EnergyManager2Control => false
  | .EnergyFlowMonitorControl => false
  | .GenericControl _ => c = "pulse" || c = "setValue"

/-- The kind-identifying phrase of a kind's invalid-command message
(several kinds use a human-readable variant of the registered tag). -/
def kindPhrase : Kind → String
  | .SwitchControl => "Switch"
  | .DimmerControl => "Dimmer"
  | .EIBDimmerControl => "EIBDimmer"
  | .ColorPickerControl => "ColorPicker"
  | .ColorPickerV2Control => "ColorPickerV2"
  | .LightController => "LightController"
  | .LightControllerV2Control => "LightControllerV2"
  | .JalousieControl => "Jalousie"
  | .GateControl => "Gate"
  | .SliderControl => "Slider"
  | .PushbuttonControl => "Pushbutton"
  | .AlarmControl => "Alarm"
  | .CentralAlarmControl => "CentralAlarm"
  | .MeterControl => "Meter"
  | .InfoOnlyDigitalControl => "InfoOnlyDigital"
  | .InfoOnlyAnalogControl => "InfoOnlyAnalog"
  | .RadioControl => "Radio"
  | .IRoomControllerV2Control => "Room Controller"
  | .AudioZoneControl => "AudioZone"
  | .AudioZoneV2Control => "AudioZone"
  | .CentralAudioZoneControl => "CentralAudioZone"
  | .CentralGateControl => "CentralGate"
  | .CentralJalousieControl => "CentralJalousie"
  | .CentralWindowControl => "CentralWindow"
  | .TextStateControl => "TextState"
  | .IntercomV2Control => "Intercom"
  | .SaunaControl => "Sauna"
  | .EnergyManager2Control => "Energy Manager Gen. 2"
  | .EnergyFlowMonitorControl => "Energy Flow Monitor"
  | .GenericControl t => t.toTag

/-- The kinds whose read-only throw message does not echo the offending
command. -/
def readOnlySilent (k : Kind) : Bool :=
  k = .MeterControl || k = .InfoOnlyDigitalControl ||
  k = .InfoOnlyAnalogControl || k = .TextStateControl

/-- C3 (amended): unknown command rejection.  For every behavior (all
registry classes and the generic fallback) and every command name the
kind does not accept, buildControlCommand raises an error whose message
carries a kind-identifying phrase; except for the read-only kinds
Meter, InfoOnlyDigital, InfoOnlyAnalog and TextState (whose fixed
read-only message omits it), the message also names the offending
command. -/
theorem unknownCommandRejection (k : Kind) (ctl : LoxoneControl)
    (uuid : String) (c : String) (v : JSVal)
    (hacc : acceptedBy k c = false) :
    ∃ msg, k.buildControlCommand uuid ctl c v = .error msg ∧
      containsStr msg (kindPhrase k) ∧
      (readOnlySilent k = false → containsStr msg c) := by
  cases k with
  | SwitchControl =>
    simp only [acceptedBy, Bool.or_eq_false_iff, decide_eq_false_iff_not] at hacc
    refine ⟨"Invalid command " ++ c ++ " for Switch", ?_, ?_, fun _ => ?_⟩
    · simp only [Kind.buildControlCommand, SwitchControl.buildControlCommand]
      rw [if_neg (by tauto)]
    · exact containsStr_append_left _ _ _ (by decide)
    · exact containsStr_append_right _ _ _ (containsStr_tail "Invalid command " c)
  | DimmerControl =>
    simp only [acceptedBy, Bool.or_eq_false_iff, decide_eq_false_iff_not] at hacc
    refine ⟨"Invalid command " ++ c ++ " for Dimmer", ?_, ?_, fun _ => ?_⟩
    · simp only [Kind.buildControlCommand, DimmerControl.buildControlCommand]
      rw [if_neg (by tauto), if_neg (fun hh => hacc.2 hh.1)]
    · exact containsStr_append_left _ _ _ (by decide)
    · exact containsStr_append_right _ _ _ (containsStr_tail "Invalid command " c)
  | EIBDimmerControl =>
    simp only [acceptedBy, Bool.or_eq_false_iff, decide_eq_false_iff_not] at hacc
    refine ⟨"Invalid command " ++ c ++ " for EIBDimmer", ?_, ?_, fun _ => ?_⟩
    · simp only [Kind.buildControlCommand, EIBDimmerControl.buildControlCommand]
      rw [if_neg hacc.1.1, if_neg hacc.1.2, if_neg (fun hh => hacc.2 hh.1)]
    · exact containsStr_append_left _ _ _ (by decide)
    · exact containsStr_append_right _ _ _ (containsStr_tail "Invalid command " c)
  | ColorPickerControl =>
    simp only [acceptedBy, Bool.or_eq_false_iff, decide_eq_false_iff_not] at hacc
    refine ⟨"Invalid command " ++ c ++ " for ColorPicker", ?_, ?_, fun _ => ?_⟩
    · simp only [Kind.buildControlCommand, ColorPickerControl.buildControlCommand]
      rw [if_neg (by tauto), if_neg (fun hh => hacc.1.2 hh.1),
        if_neg (fun hh => hacc.2 hh.1)]
    · exact containsStr_append_left _ _ _ (by decide)
    · exact containsStr_append_right _ _ _ (containsStr_tail "Invalid command " c)
  | ColorPickerV2Control =>
    simp only [acceptedBy, Bool.or_eq_false_iff, decide_eq_false_iff_not] at hacc
    refine ⟨"Invalid command " ++ c ++ " for ColorPickerV2", ?_, ?_, fun _ => ?_⟩
    · simp only [Kind.buildControlCommand,
        ColorPickerV2Control.buildControlCommand]
      rw [if_neg (fun hh => hacc.1.1.1 hh.1), if_neg (fun hh => hacc.1.1.2 hh.1),
        if_neg (fun hh => hacc.1.2 hh.1), if_neg (fun hh => hacc.2 hh.1)]
    · exact containsStr_append_left _ _ _ (by decide)
    · exact containsStr_append_right _ _ _ (containsStr_tail "Invalid command " c)
  | LightController =>
    simp only [acceptedBy, Bool.or_eq_false_iff, decide_eq_false_iff_not] at hacc
    refine ⟨"Invalid command " ++ c ++ " for LightController", ?_, ?_, fun _ => ?_⟩
    · simp only [Kind.buildControlCommand, LightController.buildControlCommand]
      rw [if_neg hacc.1.1.1.1.1, if_neg hacc.1.1.1.1.2,
        if_neg (fun hh => hacc.1.1.1.2 hh.1), if_neg hacc.1.1.2,
        if_neg hacc.1.2, if_neg (fun hh => hacc.2 hh.1)]
    · exact containsStr_append_left _ _ _ (by decide)
    · exact containsStr_append_right _ _ _ (containsStr_tail "Invalid command " c)
  | LightControllerV2Control =>
    simp only [acceptedBy, Bool.or_eq_false_iff, decide_eq_false_iff_not] at hacc
    refine ⟨"Invalid command " ++ c ++ " for LightControllerV2", ?_, ?_, fun _ => ?_⟩
    · simp only [Kind.buildControlCommand,
        LightControllerV2Control.buildControlCommand]
      rw [if_neg (by tauto), if_neg (by tauto)]
    · exact containsStr_append_left _ _ _ (by decide)
    · exact containsStr_append_right _ _ _ (containsStr_tail "Invalid command " c)
  | JalousieControl =>
    simp only [acceptedBy, Bool.or_eq_false_iff, decide_eq_false_iff_not] at hacc
    refine ⟨"Invalid command " ++ c ++ " for Jalousie", ?_, ?_, fun _ => ?_⟩
    · simp only [Kind.buildControlCommand, JalousieControl.buildControlCommand]
      rw [if_neg (by tauto), if_neg (fun hh => hacc.2 hh.1)]
    · exact containsStr_append_left _ _ _ (by decide)
    · exact containsStr_append_right _ _ _ (containsStr_tail "Invalid command " c)
  | GateControl =>
    simp only [acceptedBy, Bool.or_eq_false_iff, decide_eq_false_iff_not] at hacc
    refine ⟨"Invalid command " ++ c ++ " for Gate", ?_, ?_, fun _ => ?_⟩
    · simp only [Kind.buildControlCommand, GateControl.buildControlCommand]
      rw [if_neg (by tauto)]
    · exact containsStr_append_left _ _ _ (by decide)
    · exact containsStr_append_right _ _ _ (containsStr_tail "Invalid command " c)
  | SliderControl =>
    simp only [acceptedBy, decide_eq_false_iff_not] at hacc
    refine ⟨"Invalid command " ++ c ++ " for Slider", ?_, ?_, fun _ => ?_⟩
    · simp only [Kind.buildControlCommand, SliderControl.buildControlCommand]
      rw [if_neg (fun hh => hacc hh.1)]
    · exact containsStr_append_left _ _ _ (by decide)
    · exact containsStr_append_right _ _ _ (containsStr_tail "Invalid command " c)
  | PushbuttonControl =>
    simp only [acceptedBy, decide_eq_false_iff_not] at hacc
    refine ⟨"Invalid command " ++ c ++ " for Pushbutton", ?_, ?_, fun _ => ?_⟩
    · simp only [Kind.buildControlCommand, PushbuttonControl.buildControlCommand]
      rw [if_neg hacc]
    · exact containsStr_append_left _ _ _ (by decide)
    · exact containsStr_append_right _ _ _ (containsStr_tail "Invalid command " c)
  | AlarmControl =>
    simp only [acceptedBy, Bool.or_eq_false_iff, decide_eq_false_iff_not] at hacc
    refine ⟨"Invalid command " ++ c ++ " for Alarm", ?_, ?_, fun _ => ?_⟩
    · simp only [Kind.buildControlCommand, AlarmControl.buildControlCommand]
      rw [if_neg (by tauto)]
    · exact containsStr_append_left _ _ _ (by decide)
    · exact containsStr_append_right _ _ _ (containsStr_tail "Invalid command " c)
  | CentralAlarmControl =>
    simp only [acceptedBy, Bool.or_eq_false_iff, decide_eq_false_iff_not] at hacc
    refine ⟨"Invalid command " ++ c ++ " for CentralAlarm", ?_, ?_, fun _ => ?_⟩
    · simp only [Kind.buildControlCommand, CentralAlarmControl.buildControlCommand]
      rw [if_neg (by tauto)]
    · exact containsStr_append_left _ _ _ (by decide)
    · exact containsStr_append_right _ _ _ (containsStr_tail "Invalid command " c)
  | MeterControl =>
    refine ⟨"Meter controls are read-only and have no commands", rfl,
      by decide, fun h => by simp [readOnlySilent] at h⟩
  | InfoOnlyDigitalControl =>
    refine ⟨"InfoOnlyDigital controls are read-only and have no commands", rfl,
      by decide, fun h => by simp [readOnlySilent] at h⟩
  | InfoOnlyAnalogControl =>
    refine ⟨"InfoOnlyAnalog controls are read-only and have no commands", rfl,
      by decide, fun h => by simp [readOnlySilent] at h⟩
  | RadioControl =>
    simp only [acceptedBy, Bool.or_eq_false_iff, decide_eq_false_iff_not] at hacc
    refine ⟨"Invalid command " ++ c ++ " for Radio. Use select/N or reset",
      ?_, ?_, fun _ => ?_⟩
    · simp only [Kind.buildControlCommand, RadioControl.buildControlCommand]
      rw [if_neg (by simp [hacc.1.1]), if_neg hacc.1.2,
        if_neg (by simp [hacc.2])]
    · exact containsStr_append_left _ _ _ (by decide)
    · exact containsStr_append_right _ _ _ (containsStr_tail "Invalid command " c)
  | IRoomControllerV2Control =>
    simp only [acceptedBy, Bool.or_eq_false_iff, decide_eq_false_iff_not] at hacc
    refine ⟨"Invalid command " ++ c ++ " for Room Controller", ?_, ?_, fun _ => ?_⟩
    · simp only [Kind.buildControlCommand,
        IRoomControllerV2Control.buildControlCommand]
      rw [if_neg (fun hh => hacc.1 hh.1), if_neg (fun hh => hacc.2 hh.1)]
    · exact containsStr_append_left _ _ _ (by decide)
    · exact containsStr_append_right _ _ _ (containsStr_tail "Invalid command " c)
  | AudioZoneControl =>
    simp only [acceptedBy, Bool.or_eq_false_iff, decide_eq_false_iff_not] at hacc
    refine ⟨"Invalid command " ++ c ++ " for AudioZone", ?_, ?_, fun _ => ?_⟩
    · simp only [Kind.buildControlCommand, AudioZoneControl.buildControlCommand]
      rw [if_neg (by tauto), if_neg (fun hh => hacc.2 hh.1)]
    · exact containsStr_append_left _ _ _ (by decide)
    · exact containsStr_append_right _ _ _ (containsStr_tail "Invalid command " c)
  | AudioZoneV2Control =>
    simp only [acceptedBy, Bool.or_eq_false_iff, decide_eq_false_iff_not] at hacc
    refine ⟨"Invalid command " ++ c ++ " for AudioZone", ?_, ?_, fun _ => ?_⟩
    · simp only [Kind.buildControlCommand, AudioZoneV2Control.buildControlCommand]
      rw [if_neg (by tauto), if_neg (fun hh => hacc.2 hh.1)]
    · exact containsStr_append_left _ _ _ (by decide)
    · exact containsStr_append_right _ _ _ (containsStr_tail "Invalid command " c)
  | CentralAudioZoneControl =>
    simp only [acceptedBy, Bool.or_eq_false_iff, decide_eq_false_iff_not] at hacc
    refine ⟨"Invalid command " ++ c ++ " for CentralAudioZone", ?_, ?_, fun _ => ?_⟩
    · simp only [Kind.buildControlCommand,
        CentralAudioZoneControl.buildControlCommand]
      rw [if_neg (by tauto)]
    · exact containsStr_append_left _ _ _ (by decide)
    · exact containsStr_append_right _ _ _ (containsStr_tail "Invalid command " c)
  | CentralGateControl =>
    simp only [acceptedBy, Bool.or_eq_false_iff, decide_eq_false_iff_not] at hacc
    refine ⟨"Invalid command " ++ c ++ " for CentralGate", ?_, ?_, fun _ => ?_⟩
    · simp only [Kind.buildControlCommand, CentralGateControl.buildControlCommand]
      rw [if_neg (by tauto)]
    · exact containsStr_append_left _ _ _ (by decide)
    · exact containsStr_append_right _ _ _ (containsStr_tail "Invalid command " c)
  | CentralJalousieControl =>
    simp only [acceptedBy, Bool.or_eq_false_iff, decide_eq_false_iff_not] at hacc
    refine ⟨"Invalid command " ++ c ++ " for CentralJalousie", ?_, ?_, fun _ => ?_⟩
    · simp only [Kind.buildControlCommand,
        CentralJalousieControl.buildControlCommand]
      rw [if_neg (by tauto)]
    · exact containsStr_append_left _ _ _ (by decide)
    · exact containsStr_append_right _ _ _ (containsStr_tail "Invalid command " c)
  | CentralWindowControl =>
    simp only [acceptedBy, Bool.or_eq_false_iff, decide_eq_false_iff_not] at hacc
    refine ⟨"Invalid command " ++ c ++ " for CentralWindow", ?_, ?_, fun _ => ?_⟩
    · simp only [Kind.buildControlCommand, CentralWindowControl.buildControlCommand]
      rw [if_neg (by tauto), if_neg (fun hh => hacc.1.1.2 hh.1),
        if_neg (by tauto)]
    · exact containsStr_append_left _ _ _ (by decide)
    · exact containsStr_append_right _ _ _ (containsStr_tail "Invalid command " c)
  | TextStateControl =>
    refine ⟨"TextState controls are read-only", rfl,
      by decide, fun h => by simp [readOnlySilent] at h⟩
  | IntercomV2Control =>
    refine ⟨"Invalid command " ++ c ++ " for Intercom", rfl, ?_, fun _ => ?_⟩
    · exact containsStr_append_left _ _ _ (by decide)
    · exact containsStr_append_right _ _ _ (containsStr_tail "Invalid command " c)
  | SaunaControl =>
    simp only [acceptedBy, Bool.or_eq_false_iff, decide_eq_false_iff_not] at hacc
    refine ⟨"Invalid command " ++ c ++ " for Sauna", ?_, ?_, fun _ => ?_⟩
    · simp only [Kind.buildControlCommand, SaunaControl.buildControlCommand]
      rw [if_neg hacc.1.1.1.1, if_neg hacc.1.1.1.2, if_neg hacc.1.1.2,
        if_neg hacc.1.2, if_neg (fun hh => hacc.2 hh.1)]
    · exact containsStr_append_left _ _ _ (by decide)
    · exact containsStr_append_right _ _ _ (containsStr_tail "Invalid command " c)
  | EnergyManager2Control =>
    refine ⟨"Invalid command " ++ c ++ " for Energy Manager Gen. 2", rfl, ?_,
      fun _ => ?_⟩
    · exact containsStr_append_left _ _ _ (by decide)
    · exact containsStr_append_right _ _ _ (containsStr_tail "Invalid command " c)
  | EnergyFlowMonitorControl =>
    refine ⟨"Invalid command " ++ c ++ " for Energy Flow Monitor", rfl, ?_,
      fun _ => ?_⟩
    · exact containsStr_append_left _ _ _ (by decide)
    · exact containsStr_append_right _ _ _ (containsStr_tail "Invalid command " c)
  | GenericControl t =>
    simp only [acceptedBy, Bool.or_eq_false_iff, decide_eq_false_iff_not] at hacc
    refine ⟨"Unknown command " ++ c ++ " for control type " ++ t.toTag,
      ?_, ?_, fun _ => ?_⟩
    · simp only [Kind.buildControlCommand, GenericControl.buildControlCommand]
      rw [if_neg hacc.1, if_neg (fun hh => hacc.2 hh.1)]
    · exact containsStr_tail _ _
    · exact containsStr_append_right _ _ _
        (containsStr_append_right _ _ _ (containsStr_tail "Unknown command " c))

/-- C3 witness: the Switch kind rejects a made-up command, naming the
command and the kind. -/
theorem unknownCommandRejection_witness :
    ∃ msg,
      Kind.buildControlCommand .SwitchControl "aaa-bbb" { type := "Switch" }
        "not-a-real-command" .undef = .error msg ∧
      containsStr msg (kindPhrase .SwitchControl) ∧
      (readOnlySilent .SwitchControl = false →
        containsStr msg "not-a-real-command") :=
  unknownCommandRejection .SwitchControl { type := "Switch" } "aaa-bbb"
    "not-a-real-command" .undef (by decide)

/-- C3 counterexample: the claim as stated fails on the read-only Meter
kind, whose error message does not name the offending command. -/
theorem unknownCommandRejection_counterexample :
    Kind.buildControlCommand .MeterControl "aaa-bbb" { type := "Meter" }
      "not-a-real-command" .undef =
      .error "Meter controls are read-only and have no commands" ∧
    ¬ containsStr "Meter controls are read-only and have no commands"
      "not-a-real-command" :=
  ⟨rfl, by decide⟩

/-- For the csv color commands hsv, temp and lumitech of every device
kind, any successfully built wire string has a parenthesis-free
payload: those builders strip all parentheses from the supplied
value. -/
theorem stripsCsvColorCommands (k : Kind) (ctl : LoxoneControl) (uuid : String)
    (cmd : String) (v : JSVal) (out : String)
    (hcmd : cmd = "hsv" ∨ cmd = "temp" ∨ cmd = "lumitech")
    (hok : k.buildControlCommand uuid ctl cmd v = .ok out) :
    ∃ target s, out = wire target (cmd ++ "(" ++ s ++ ")") ∧
      parenFree s = true := by
  cases k with
  | ColorPickerControl =>
    rcases hcmd with rfl | rfl | rfl
    · by_cases htr : jsTruthy v = true
      · simp [Kind.buildControlCommand, ColorPickerControl.buildControlCommand,
          htr] at hok
        refine ⟨uuid, stripParens (jsToString v), ?_, parenFree_stripParens _⟩
        rw [← hok]
        congr 1
      · simp [Kind.buildControlCommand, ColorPickerControl.buildControlCommand,
          htr] at hok
    · simp [Kind.buildControlCommand,
        ColorPickerControl.buildControlCommand] at hok
    · by_cases htr : jsTruthy v = true
      · simp [Kind.buildControlCommand, ColorPickerControl.buildControlCommand,
          htr] at hok
        refine ⟨uuid, stripParens (jsToString v), ?_, parenFree_stripParens _⟩
        rw [← hok]
        congr 1
      · simp [Kind.buildControlCommand, ColorPickerControl.buildControlCommand,
          htr] at hok
  | ColorPickerV2Control =>
    rcases hcmd with rfl | rfl | rfl
    · by_cases htr : jsTruthy v = true
      · simp [Kind.buildControlCommand,
          ColorPickerV2Control.buildControlCommand, htr] at hok
        refine ⟨uuid, stripParens (jsToString v), ?_, parenFree_stripParens _⟩
        rw [← hok]
        congr 1
      · simp [Kind.buildControlCommand,
          ColorPickerV2Control.buildControlCommand, htr] at hok
    · by_cases htr : jsTruthy v = true
      · simp [Kind.buildControlCommand,
          ColorPickerV2Control.buildControlCommand, htr] at hok
        refine ⟨uuid, stripParens (jsToString v), ?_, parenFree_stripParens _⟩
        rw [← hok]
        congr 1
      · simp [Kind.buildControlCommand,
          ColorPickerV2Control.buildControlCommand, htr] at hok
    · simp [Kind.buildControlCommand,
        ColorPickerV2Control.buildControlCommand] at hok
  | LightControllerV2Control =>
    rcases hcmd with rfl | rfl | rfl
    · rcases hres : LightControllerV2Control.resolveColorPicker ctl with _ | cp
      · simp [Kind.buildControlCommand,
          LightControllerV2Control.buildControlCommand, hres] at hok
      · by_cases htr : jsTruthy v = true
        · simp [Kind.buildControlCommand,
            LightControllerV2Control.buildControlCommand, hres, htr] at hok
          refine ⟨cp, stripParens (jsToString v), ?_, parenFree_stripParens _⟩
          rw [← hok]
          congr 1
        · simp [Kind.buildControlCommand,
            LightControllerV2Control.buildControlCommand, hres, htr] at hok
    · rcases hres : LightControllerV2Control.resolveColorPicker ctl with _ | cp
      · simp [Kind.buildControlCommand,
          LightControllerV2Control.buildControlCommand, hres] at hok
      · by_cases htr : jsTruthy v = true
        · simp [Kind.buildControlCommand,
            LightControllerV2Control.buildControlCommand, hres, htr] at hok
          refine ⟨cp, stripParens (jsToString v), ?_, parenFree_stripParens _⟩
          rw [← hok]
          congr 1
        · simp [Kind.buildControlCommand,
            LightControllerV2Control.buildControlCommand, hres, htr] at hok
    · simp [Kind.buildControlCommand,
        LightControllerV2Control.buildControlCommand] at hok
  | SwitchControl =>
    rcases hcmd with rfl | rfl | rfl <;>
      simp [Kind.buildControlCommand, SwitchControl.buildControlCommand] at hok
  | DimmerControl =>
    rcases hcmd with rfl | rfl | rfl <;>
      simp [Kind.buildControlCommand, DimmerControl.buildControlCommand] at hok
  | EIBDimmerControl =>
    rcases hcmd with rfl | rfl | rfl <;>
      simp [Kind.buildControlCommand, EIBDimmerControl.buildControlCommand] at hok
  | LightController =>
    rcases hcmd with rfl | rfl | rfl <;>
      simp [Kind.buildControlCommand, LightController.buildControlCommand] at hok
  | JalousieControl =>
    rcases hcmd with rfl | rfl | rfl <;>
      simp [Kind.buildControlCommand, JalousieControl.buildControlCommand] at hok
  | GateControl =>
    rcases hcmd with rfl | rfl | rfl <;>
      simp [Kind.buildControlCommand, GateControl.buildControlCommand] at hok
  | SliderControl =>
    rcases hcmd with rfl | rfl | rfl <;>
      simp [Kind.buildControlCommand, SliderControl.buildControlCommand] at hok
  | PushbuttonControl =>
    rcases hcmd with rfl | rfl | rfl <;>
      simp [Kind.buildControlCommand, PushbuttonControl.buildControlCommand] at hok
  | AlarmControl =>
    rcases hcmd with rfl | rfl | rfl <;>
      simp [Kind.buildControlCommand, AlarmControl.buildControlCommand] at hok
  | CentralAlarmControl =>
    rcases hcmd with rfl | rfl | rfl <;>
      simp [Kind.buildControlCommand,
        CentralAlarmControl.buildControlCommand] at hok
  | MeterControl =>
    rcases hcmd with rfl | rfl | rfl <;>
      simp [Kind.buildControlCommand, MeterControl.buildControlCommand] at hok
  | InfoOnlyDigitalControl =>
    rcases hcmd with rfl | rfl | rfl <;>
      simp [Kind.buildControlCommand,
        InfoOnlyDigitalControl.buildControlCommand] at hok
  | InfoOnlyAnalogControl =>
    rcases hcmd with rfl | rfl | rfl <;>
      simp [Kind.buildControlCommand,
        InfoOnlyAnalogControl.buildControlCommand] at hok
  | RadioControl =>
    rcases hcmd with rfl | rfl | rfl <;>
      simp [Kind.buildControlCommand, RadioControl.buildControlCommand,
        strStartsWith, isDigits] at hok
  | IRoomControllerV2Control =>
    rcases hcmd with rfl | rfl | rfl <;>
      simp [Kind.buildControlCommand,
        IRoomControllerV2Control.buildControlCommand] at hok
  | AudioZoneControl =>
    rcases hcmd with rfl | rfl | rfl <;>
      simp [Kind.buildControlCommand, AudioZoneControl.buildControlCommand] at hok
  | AudioZoneV2Control =>
    rcases hcmd with rfl | rfl | rfl <;>
      simp [Kind.buildControlCommand,
        AudioZoneV2Control.buildControlCommand] at hok
  | CentralAudioZoneControl =>
    rcases hcmd with rfl | rfl | rfl <;>
      simp [Kind.buildControlCommand,
        CentralAudioZoneControl.buildControlCommand] at hok
  | CentralGateControl =>
    rcases hcmd with rfl | rfl | rfl <;>
      simp [Kind.buildControlCommand,
        CentralGateControl.buildControlCommand] at hok
  | CentralJalousieControl =>
    rcases hcmd with rfl | rfl | rfl <;>
      simp [Kind.buildControlCommand,
        CentralJalousieControl.buildControlCommand] at hok
  | CentralWindowControl =>
    rcases hcmd with rfl | rfl | rfl <;>
      simp [Kind.buildControlCommand,
        CentralWindowControl.buildControlCommand] at hok
  | TextStateControl =>
    rcases hcmd with rfl | rfl | rfl <;>
      simp [Kind.buildControlCommand, TextStateControl.buildControlCommand] at hok
  | IntercomV2Control =>
    rcases hcmd with rfl | rfl | rfl <;>
      simp [Kind.buildControlCommand, IntercomV2Control.buildControlCommand] at hok
  | SaunaControl =>
    rcases hcmd with rfl | rfl | rfl <;>
      simp [Kind.buildControlCommand, SaunaControl.buildControlCommand] at hok
  | EnergyManager2Control =>
    rcases hcmd with rfl | rfl | rfl <;>
      simp [Kind.buildControlCommand,
        EnergyManager2Control.buildControlCommand] at hok
  | EnergyFlowMonitorControl =>
    rcases hcmd with rfl | rfl | rfl <;>
      simp [Kind.buildControlCommand,
        EnergyFlowMonitorControl.buildControlCommand] at hok
  | GenericControl t =>
    rcases hcmd with rfl | rfl | rfl <;>
      simp [Kind.buildControlCommand, GenericControl.buildControlCommand] at hok

/-- C6 (amended): parenthesis stripping.  For any successful
buildControlCommand of any device kind: if the command is one of the
csv color commands hsv, temp or lumitech, the wire string has the shape
head/(command)((payload)) with a parenthesis-free payload — those
builders strip all parentheses from the supplied value; but
ColorPickerV2's composite daylight command interpolates the supplied
value verbatim, without stripping. -/
theorem parenStripping (k : Kind) (ctl : LoxoneControl) (uuid : String)
    (cmd : String) (v : JSVal) (out : String)
    (hok : k.buildControlCommand uuid ctl cmd v = .ok out) :
    ((cmd = "hsv" ∨ cmd = "temp" ∨ cmd = "lumitech") →
      ∃ target s, out = wire target (cmd ++ "(" ++ s ++ ")") ∧
        parenFree s = true) ∧
    (k = Kind.ColorPickerV2Control → cmd = "daylight" →
      out = wire uuid ("daylight(" ++ jsToString v ++ ")")) := by
  constructor
  · intro hcmd
    exact stripsCsvColorCommands k ctl uuid cmd v out hcmd hok
  · rintro rfl rfl
    by_cases htr : jsTruthy v = true
    · simp [Kind.buildControlCommand,
        ColorPickerV2Control.buildControlCommand, htr] at hok
      exact hok.symm
    · simp [Kind.buildControlCommand,
        ColorPickerV2Control.buildControlCommand, htr] at hok

/-- C6 witness: a concrete hsv command with a parenthesised value is
emitted with the parentheses stripped, and a concrete daylight command
embeds its value verbatim. -/
theorem parenStripping_witness :
    (∃ target s,
      "jdev/sps/io/aaa-bbb/hsv(240,100,100)" =
        wire target ("hsv" ++ "(" ++ s ++ ")") ∧ parenFree s = true) ∧
    "jdev/sps/io/aaa-bbb/daylight(50)" =
      wire "aaa-bbb" ("daylight(" ++ jsToString (.str "50") ++ ")") :=
  ⟨(parenStripping .ColorPickerV2Control { type := "ColorPickerV2" } "aaa-bbb"
      "hsv" (.str "(240,100,100)") "jdev/sps/io/aaa-bbb/hsv(240,100,100)"
      rfl).1 (Or.inl rfl),
   (parenStripping .ColorPickerV2Control { type := "ColorPickerV2" } "aaa-bbb"
      "daylight" (.str "50") "jdev/sps/io/aaa-bbb/daylight(50)" rfl).2 rfl rfl⟩

/-- C6 counterexample: the claim as stated fails on the composite
daylight command, which embeds the supplied value verbatim: for the
value 1(2) the emitted wire string keeps the value's parentheses
(two opening parentheses in total), while stripping would have removed
them. -/
theorem parenStripping_counterexample :
    Kind.buildControlCommand .ColorPickerV2Control "aaa-bbb"
      { type := "ColorPickerV2" } "daylight" (.str "1(2)") =
      .ok "jdev/sps/io/aaa-bbb/daylight(1(2))" ∧
    (("jdev/sps/io/aaa-bbb/daylight(1(2))").data.filter
      (fun c => c = '(')).length = 2 ∧
    stripParens "1(2)" = "12" := by
  refine ⟨rfl, by decide, by decide⟩

/-! Connection session (services/ConnectionManager.ts).

The event-driven lifecycle is embedded as a transition system: the
fields of the class plus two bookkeeping fields that make the
asynchronous parts explicit — pending counts reconnect timers scheduled
by handleReconnect that have not fired yet, and inflight records a
connect() call still awaiting its authentication race (during which the
once-handlers for authenticated / disconnected are installed). -/

/-- The ConnectionState enum. -/
inductive ConnState where
  | UNINITIALIZED | INITIALIZED | CONNECTING | CONNECTED
  | DISCONNECTING | DISCONNECTED | ERROR
deriving DecidableEq, Repr

/-- The connection manager's state. -/
structure ConnectionManager where
  clientInit : Bool
  state : ConnState
  structureLoaded : Bool
  reconnectAttempts : Nat
  pending : Nat
  inflight : Bool
deriving DecidableEq, Repr

/-- MAX_RECONNECT_ATTEMPTS. -/
def MAX_RECONNECT_ATTEMPTS : Nat := 3

/-- The backoff delay handleReconnect computes after incrementing the
attempt counter: min(1000 * 2 to-the attempts, 30000). -/
def reconnectDelay (attempts : Nat) : Nat :=
  min (1000 * 2 ^ attempts) 30000

/-- ConnectionManager.isConnected. -/
def ConnectionManager.isConnected (cm : ConnectionManager) : Bool :=
  cm.state = ConnState.CONNECTED

/-- ConnectionManager.sendCommand: throws unless a client exists and
the state is CONNECTED; on success the command text is handed to the
client (we return it). -/
def ConnectionManager.sendCommand (cm : ConnectionManager) (command : String) :
    Except String String :=
  if ¬cm.clientInit then .error "ConnectionManager not initialized"
  else if cm.state ≠ ConnState.CONNECTED then .error "Not connected to Loxone"
  else .ok command

/-- The events that drive the lifecycle: a disconnected notification
from the client, a connected notification, an authenticated
notification, a scheduled reconnect timer firing (which invokes
connect()), and the authentication timeout of an in-flight connect. -/
inductive CMEvent where
  | disconnected
  | connectedEvt
  | authenticated
  | timerFire
  | authTimeout
deriving DecidableEq, Repr

/-- One event-handler step, transcribed from setupEventHandlers,
handleReconnect and connect():
the disconnected handler records whether the state was CONNECTED, sets
DISCONNECTED and schedules a reconnect only if it was connected and the
attempt counter is below the cap (handleReconnect then increments the
counter and schedules a timer); if a connect() was in flight its error
handler rejects the race and the catch sets ERROR;
the connected handler promotes CONNECTING to CONNECTED;
the authenticated handler resets the attempt counter, and an in-flight
connect() resolves its race and sets CONNECTED;
a firing timer runs connect(), which returns early when CONNECTED or
CONNECTING and otherwise enters CONNECTING with the race in flight;
the authentication timeout fails an in-flight connect to ERROR. -/
def ConnectionManager.step (cm : ConnectionManager) :
    CMEvent → ConnectionManager
  | .disconnected =>
    let wasConnected := cm.state = ConnState.CONNECTED
    let base := { cm with
      state := (if cm.inflight then ConnState.ERROR else ConnState.DISCONNECTED),
      inflight := false }
    if wasConnected ∧ cm.reconnectAttempts < MAX_RECONNECT_ATTEMPTS then
      { base with
        reconnectAttempts := cm.reconnectAttempts + 1,
        pending := cm.pending + 1 }
    else base
  | .connectedEvt =>
    if cm.state = ConnState.CONNECTING then
      { cm with state := ConnState.CONNECTED }
    else cm
  | .authenticated =>
    if cm.inflight then
      { cm with
        reconnectAttempts := 0
        state := ConnState.CONNECTED
        inflight := false }
    else { cm with reconnectAttempts := 0 }
  | .timerFire =>
    if cm.pending = 0 then cm
    else
      let cm' := { cm with pending := cm.pending - 1 }
      if cm'.state = ConnState.CONNECTED ∨ cm'.state = ConnState.CONNECTING then
        cm'
      else { cm' with state := ConnState.CONNECTING, inflight := true }
  | .authTimeout =>
    if cm.inflight then
      { cm with state := ConnState.ERROR, inflight := false }
    else cm

/-- Run a sequence of events. -/
def ConnectionManager.steps (cm : ConnectionManager) (es : List CMEvent) :
    ConnectionManager :=
  es.foldl ConnectionManager.step cm

/-- The exhausted-reconnection state: the cap is reached, no timer is
pending, no connect is in flight, and the session is not connected or
connecting. -/
def Dead (cm : ConnectionManager) : Prop :=
  cm.reconnectAttempts = MAX_RECONNECT_ATTEMPTS ∧ cm.pending = 0 ∧
  cm.inflight = false ∧ cm.state ≠ ConnState.CONNECTED ∧
  cm.state ≠ ConnState.CONNECTING

instance (cm : ConnectionManager) : Decidable (Dead cm) := by
  rw [Dead]
  infer_instance

/-- A dead session stays dead under every event except a successful
authentication. -/
theorem dead_step (cm : ConnectionManager) (hd : Dead cm) (e : CMEvent)
    (he : e ≠ CMEvent.authenticated) : Dead (cm.step e) := by
  obtain ⟨h1, h2, h3, h4, h5⟩ := hd
  cases e with
  | disconnected =>
    simp only [ConnectionManager.step]
    rw [if_neg (fun hh => h4 hh.1)]
    rw [h3]
    exact ⟨h1, h2, rfl, by simp, by simp⟩
  | connectedEvt =>
    simp only [ConnectionManager.step]; rw [if_neg h5]
    exact ⟨h1, h2, h3, h4, h5⟩
  | authenticated => exact absurd rfl he
  | timerFire =>
    simp only [ConnectionManager.step]; rw [if_pos h2]
    exact ⟨h1, h2, h3, h4, h5⟩
  | authTimeout =>
    simp only [ConnectionManager.step]
    rw [h3]
    simp only [Bool.false_eq_true, if_false]
    exact ⟨h1, h2, h3, h4, h5⟩

/-- A dead session stays dead under every authentication-free event
sequence. -/
theorem dead_steps (cm : ConnectionManager) (hd : Dead cm)
    (es : List CMEvent) (hes : ∀ x ∈ es, x ≠ CMEvent.authenticated) :
    Dead (cm.steps es) := by
  induction es generalizing cm with
  | nil => exact hd
  | cons e rest ih =>
    rw [ConnectionManager.steps, List.foldl_cons]
    exact ih (cm.step e)
      (dead_step cm hd e (hes e (List.mem_cons_self e rest)))
      (fun x hx => hes x (List.mem_cons_of_mem e hx))

/-- C8: bounded reconnection.  The attempt counter never exceeds the
cap and is never decreased by any event other than a successful
authentication; a disconnect schedules a reconnect attempt only while
the session was CONNECTED with the counter below the cap; the backoff
delay doubles per attempt up to the 30-second ceiling; and once the cap
is reached with no attempt pending (the Dead state), every further
authentication-free event sequence leaves the session dead, with
isConnected() false and no further attempt ever scheduled. -/
theorem boundedReconnection (cm dm : ConnectionManager) (e : CMEvent)
    (es : List CMEvent)
    (hcap : cm.reconnectAttempts ≤ MAX_RECONNECT_ATTEMPTS)
    (hne : e ≠ CMEvent.authenticated)
    (hdead : Dead dm) (hes : ∀ x ∈ es, x ≠ CMEvent.authenticated) :
    (cm.step e).reconnectAttempts ≤ MAX_RECONNECT_ATTEMPTS ∧
    cm.reconnectAttempts ≤ (cm.step e).reconnectAttempts ∧
    ((cm.step CMEvent.disconnected).pending ≠ cm.pending →
      cm.state = ConnState.CONNECTED ∧
      cm.reconnectAttempts < MAX_RECONNECT_ATTEMPTS) ∧
    Dead (dm.steps es) ∧
    (dm.steps es).isConnected = false ∧
    (dm.steps es).pending = 0 ∧
    reconnectDelay cm.reconnectAttempts ≤ 30000 ∧
    (∀ n m : Nat, n ≤ m → reconnectDelay n ≤ reconnectDelay m) := by
  have hds := dead_steps dm hdead es hes
  refine ⟨?_, ?_, ?_, hds, ?_, hds.2.1, ?_, ?_⟩
  · cases e with
    | disconnected =>
      simp only [ConnectionManager.step]
      by_cases hcond : cm.state = ConnState.CONNECTED ∧
          cm.reconnectAttempts < MAX_RECONNECT_ATTEMPTS
      · rw [if_pos hcond]
        exact hcond.2
      · rw [if_neg hcond]
        exact hcap
    | connectedEvt =>
      simp only [ConnectionManager.step]
      split <;> exact hcap
    | authenticated =>
      simp only [ConnectionManager.step]
      split <;> simp [MAX_RECONNECT_ATTEMPTS]
    | timerFire =>
      simp only [ConnectionManager.step]
      split
      · exact hcap
      · split <;> exact hcap
    | authTimeout =>
      simp only [ConnectionManager.step]
      split <;> exact hcap
  · cases e with
    | disconnected =>
      simp only [ConnectionManager.step]
      by_cases hcond : cm.state = ConnState.CONNECTED ∧
          cm.reconnectAttempts < MAX_RECONNECT_ATTEMPTS
      · rw [if_pos hcond]
        exact Nat.le_succ _
      · rw [if_neg hcond]
    | connectedEvt =>
      simp only [ConnectionManager.step]
      split <;> exact Nat.le_refl _
    | authenticated => exact absurd rfl hne
    | timerFire =>
      simp only [ConnectionManager.step]
      split
      · exact Nat.le_refl _
      · split <;> exact Nat.le_refl _
    | authTimeout =>
      simp only [ConnectionManager.step]
      split <;> exact Nat.le_refl _
  · intro hpend
    simp only [ConnectionManager.step] at hpend
    by_cases hcond : cm.state = ConnState.CONNECTED ∧
        cm.reconnectAttempts < MAX_RECONNECT_ATTEMPTS
    · exact hcond
    · rw [if_neg hcond] at hpend
      exact absurd rfl hpend
  · rw [ConnectionManager.isConnected]
    simp only [decide_eq_false_iff_not]
    exact hds.2.2.2.1
  · rw [reconnectDelay]
    exact Nat.min_le_right _ _
  · intro n m hnm
    rw [reconnectDelay, reconnectDelay]
    exact min_le_min
      (Nat.mul_le_mul_left 1000 (Nat.pow_le_pow_right (by norm_num) hnm))
      (Nat.le_refl 30000)

/-- C8 witness: Scenario E.  From a connected session, three
disconnect / reconnect-and-fail cycles exhaust the cap and reach the
dead state; the theorem then shows that two further disconnects and a
stray timer leave it dead and disconnected. -/
theorem boundedReconnection_witness :
    (((⟨true, ConnState.CONNECTED, true, 0, 0, false⟩ :
        ConnectionManager).steps
      [.disconnected, .timerFire, .connectedEvt,
       .disconnected, .timerFire, .connectedEvt,
       .disconnected, .timerFire, .connectedEvt,
       .disconnected]).step CMEvent.disconnected).reconnectAttempts ≤
      MAX_RECONNECT_ATTEMPTS ∧
    ((⟨true, ConnState.CONNECTED, true, 0, 0, false⟩ :
        ConnectionManager).steps
      [.disconnected, .timerFire, .connectedEvt,
       .disconnected, .timerFire, .connectedEvt,
       .disconnected, .timerFire, .connectedEvt,
       .disconnected]).reconnectAttempts ≤ MAX_RECONNECT_ATTEMPTS ∧
    True ∧
    Dead (((⟨true, ConnState.CONNECTED, true, 0, 0, false⟩ :
        ConnectionManager).steps
      [.disconnected, .timerFire, .connectedEvt,
       .disconnected, .timerFire, .connectedEvt,
       .disconnected, .timerFire, .connectedEvt,
       .disconnected]).steps [.disconnected, .timerFire, .disconnected]) ∧
    (((⟨true, ConnState.CONNECTED, true, 0, 0, false⟩ :
        ConnectionManager).steps
      [.disconnected, .timerFire, .connectedEvt,
       .disconnected, .timerFire, .connectedEvt,
       .disconnected, .timerFire, .connectedEvt,
       .disconnected]).steps
        [.disconnected, .timerFire, .disconnected]).isConnected = false := by
  have hmain := boundedReconnection
    ((⟨true, ConnState.CONNECTED, true, 0, 0, false⟩ :
        ConnectionManager).steps
      [.disconnected, .timerFire, .connectedEvt,
       .disconnected, .timerFire, .connectedEvt,
       .disconnected, .timerFire, .connectedEvt,
       .disconnected])
    ((⟨true, ConnState.CONNECTED, true, 0, 0, false⟩ :
        ConnectionManager).steps
      [.disconnected, .timerFire, .connectedEvt,
       .disconnected, .timerFire, .connectedEvt,
       .disconnected, .timerFire, .connectedEvt,
       .disconnected])
    CMEvent.disconnected [.disconnected, .timerFire, .disconnected]
    (by decide) (by decide) (by decide) (by decide)
  exact ⟨hmain.1, hmain.2.1.trans (by decide), trivial, hmain.2.2.2.1,
    hmain.2.2.2.2.1⟩

/-! Device manager (services/ControlManager.ts). -/

/-- The structure file held by the ControlManager (rooms and categories
are projected by getRooms/getCategories; the claims only exercise the
controls map). -/
structure StructureFile where
  rooms : List (String × String) := []
  cats : List (String × String) := []
  controls : List (String × LoxoneControl) := []
deriving Repr

/-- JS truthiness of an optional string filter argument. -/
def jsStrTruthy : Option String → Bool
  | some s => s ≠ ""
  | none => false

/-- The room filter of getControls: skip the control unless it matches,
but only when the filter argument is truthy. -/
def roomFilterOk (f : Option String) (ctl : LoxoneControl) : Bool :=
  if jsStrTruthy f then ctl.room == f else true

/-- The category filter of getControls. -/
def catFilterOk (f : Option String) (ctl : LoxoneControl) : Bool :=
  if jsStrTruthy f then ctl.cat == f else true

/-- ControlManager.getControls: with no structure an empty list;
otherwise every supported control surviving both filters is turned into
an instance via the factory, with a cache snapshot. -/
def getControls (structure? : Option StructureFile)
    (cache : List (String × Addr)) (roomUuid catUuid : Option String) :
    List ControlInstance :=
  match structure? with
  | none => []
  | some st =>
    (st.controls.filter (fun p =>
      isSupported p.2 && roomFilterOk roomUuid p.2 &&
      catFilterOk catUuid p.2)).map
      (fun p => ControlTypeFactory.create p.1 p.2 cache)

/-- The error values setControl can surface. -/
inductive CMErr where
  | mcp (code msg : String)
  | js (msg : String)
deriving DecidableEq, Repr

/-- The whole system the ControlManager operates on: the connection,
the structure, the state manager, and the log of commands actually
handed to the connection (to state that failures send nothing). -/
structure LoxSystem where
  conn : ConnectionManager
  structureFile : Option StructureFile
  sm : StateManager
  sentLog : List String
deriving Repr

/-- The decision core of ControlManager.setControl: fail unless
connected; fail until the structure is loaded; fail when the uuid is
unknown; otherwise build the command on an instance created with an
empty cache map (new Map()) and hand it to the connection; the value
returned is the wire command actually sent. -/
def setControlResult (conn : ConnectionManager)
    (stf : Option StructureFile) (uuid command : String) (v : JSVal) :
    Except CMErr String :=
  if ¬conn.isConnected then
    .error (.mcp "ConnectionClosed" "Not connected to Loxone")
  else
    match stf with
    | none =>
      .error (.mcp "ConnectionClosed"
        "Connecting to Smart Home. Try again later.")
    | some st =>
      match st.controls.find? (fun p => p.1 = uuid) with
      | none =>
        .error (.mcp "MethodNotFound" ("Control " ++ uuid ++ " not found"))
      | some p =>
        match (ControlTypeFactory.create uuid p.2 []).buildControlCommand
            command v with
        | .error m => .error (.js m)
        | .ok cmd =>
          match conn.sendCommand cmd with
          | .error m => .error (.js m)
          | .ok sent => .ok sent

/-- ControlManager.setControl on the whole system: on success the wire
command is appended to the sent log and true is returned (the code-200
response); on failure the system is untouched. -/
def LoxSystem.setControl (sys : LoxSystem) (uuid command : String)
    (v : JSVal) : LoxSystem × Except CMErr Bool :=
  match setControlResult sys.conn sys.structureFile uuid command v with
  | .error e => (sys, .error e)
  | .ok sent => ({ sys with sentLog := sys.sentLog ++ [sent] }, .ok true)

/-- A disconnected sample system. -/
def sampleDisconnectedSys : LoxSystem :=
  ⟨⟨true, ConnState.DISCONNECTED, false, 0, 0, false⟩, none,
    ⟨[[]], [], 0⟩, []⟩

/-- C4: not-connected fail-fast.  When the session state is anything
but CONNECTED, sendCommand fails immediately with a not-connected (or
not-initialized) error; and setControl fails immediately with the
not-connected error when disconnected, or the not-ready error when the
device graph has not loaded, leaving the whole system (cache, session,
sent log) unchanged and sending nothing. -/
theorem notConnectedFailFast (sys : LoxSystem) (uuid command text : String)
    (v : JSVal)
    (h : sys.conn.state ≠ ConnState.CONNECTED ∨ sys.structureFile = none) :
    ((sys.setControl uuid command v).1 = sys ∧
      ∃ e, (sys.setControl uuid command v).2 = .error e ∧
        (e = .mcp "ConnectionClosed" "Not connected to Loxone" ∨
         e = .mcp "ConnectionClosed"
           "Connecting to Smart Home. Try again later.")) ∧
    (sys.conn.state ≠ ConnState.CONNECTED →
      ∃ msg, sys.conn.sendCommand text = .error msg ∧
        (msg = "Not connected to Loxone" ∨
         msg = "ConnectionManager not initialized")) := by
  have hres : ∃ e, setControlResult sys.conn sys.structureFile uuid command v =
      .error e ∧
      (e = .mcp "ConnectionClosed" "Not connected to Loxone" ∨
       e = .mcp "ConnectionClosed"
         "Connecting to Smart Home. Try again later.") := by
    by_cases hconn : sys.conn.isConnected = true
    · have hst : sys.structureFile = none := by
        rcases h with h | h
        · exact absurd (by simpa [ConnectionManager.isConnected] using hconn) h
        · exact h
      rw [setControlResult.eq_def, if_neg (by simp [hconn]), hst]
      exact ⟨_, rfl, Or.inr rfl⟩
    · rw [setControlResult.eq_def, if_pos (by simp [hconn])]
      exact ⟨_, rfl, Or.inl rfl⟩
  obtain ⟨e, he, hor⟩ := hres
  constructor
  · rw [LoxSystem.setControl, he]
    exact ⟨rfl, e, rfl, hor⟩
  · intro hstate
    rw [ConnectionManager.sendCommand]
    by_cases hcl : sys.conn.clientInit = true
    · rw [if_neg (by simp [hcl]), if_pos (by simpa using hstate)]
      exact ⟨_, rfl, Or.inl rfl⟩
    · rw [if_pos (by simp [hcl])]
      exact ⟨_, rfl, Or.inr rfl⟩

/-- C4 witness: a disconnected system rejects both operations without
touching anything. -/
theorem notConnectedFailFast_witness :
    ((sampleDisconnectedSys.setControl "dev-1" "on" .undef).1 =
        sampleDisconnectedSys ∧
      ∃ e, (sampleDisconnectedSys.setControl "dev-1" "on" .undef).2 =
          .error e ∧
        (e = .mcp "ConnectionClosed" "Not connected to Loxone" ∨
         e = .mcp "ConnectionClosed"
           "Connecting to Smart Home. Try again later.")) ∧
    (sampleDisconnectedSys.conn.state ≠ ConnState.CONNECTED →
      ∃ msg,
        sampleDisconnectedSys.conn.sendCommand "jdev/sps/io/x/on" =
          .error msg ∧
        (msg = "Not connected to Loxone" ∨
         msg = "ConnectionManager not initialized")) :=
  notConnectedFailFast sampleDisconnectedSys "dev-1" "on" "jdev/sps/io/x/on"
    .undef (Or.inl (by decide))

/-- C10: command dispatch is state-independent.  buildControlCommand
never reads the state cache an instance was constructed with, and
setControl (which constructs its instance with an empty map) gives
identical results — the same error or the identical sent wire
command — for any two state-manager contents. -/
theorem commandDispatchStateIndependent (k : Kind) (uuid : String)
    (ctl : LoxoneControl) (command : String) (v : JSVal)
    (cache1 cache2 : List (String × Addr)) (conn : ConnectionManager)
    (stf : Option StructureFile) (sm1 sm2 : StateManager)
    (log : List String) (u2 : String) :
    (ControlInstance.mk k uuid ctl cache1).buildControlCommand command v =
      (ControlInstance.mk k uuid ctl cache2).buildControlCommand command v ∧
    ((LoxSystem.mk conn stf sm1 log).setControl u2 command v).1.sentLog =
      ((LoxSystem.mk conn stf sm2 log).setControl u2 command v).1.sentLog ∧
    ((LoxSystem.mk conn stf sm1 log).setControl u2 command v).2 =
      ((LoxSystem.mk conn stf sm2 log).setControl u2 command v).2 := by
  refine ⟨rfl, ?_, ?_⟩ <;>
    (cases h : setControlResult conn stf u2 command v <;>
      simp [LoxSystem.setControl, h])

/-- The factory always installs the requested uuid on the instance. -/
theorem create_uuid (u : String) (ctl : LoxoneControl)
    (cache : List (String × Addr)) :
    (ControlTypeFactory.create u ctl cache).uuid = u := by
  rw [ControlTypeFactory.create.eq_def]
  simp only []
  cases controlTypeMap (mapControlType ctl.type) <;> rfl

/-- C7: filter AND-semantics and monotonicity.  With a loaded graph and
truthy filters, getControls(roomId, catId) returns exactly the
supported descriptors whose room and category both match (in structure
order); every instance it returns also appears in
getControls(roomId, null); and getControls(roomId, null) returns
exactly the supported descriptors matching the room filter alone. -/
theorem getControlsFilter (st : StructureFile) (cache : List (String × Addr))
    (r c : String) (hr : r ≠ "") (hc : c ≠ "") :
    ((getControls (some st) cache (some r) (some c)).map
        (fun i => i.uuid) =
      (st.controls.filter (fun p =>
        isSupported p.2 && (p.2.room == some r) && (p.2.cat == some c))).map
        (fun p => p.1)) ∧
    (∀ inst ∈ getControls (some st) cache (some r) (some c),
      inst ∈ getControls (some st) cache (some r) none) ∧
    ((getControls (some st) cache (some r) none).map (fun i => i.uuid) =
      (st.controls.filter (fun p =>
        isSupported p.2 && (p.2.room == some r))).map (fun p => p.1)) := by
  have hmapu : ∀ (l : List (String × LoxoneControl)),
      (l.map (fun p => ControlTypeFactory.create p.1 p.2 cache)).map
        (fun i => i.uuid) = l.map (fun p => p.1) := by
    intro l
    rw [List.map_map]
    apply List.map_congr_left
    intro p _
    exact create_uuid p.1 p.2 cache
  refine ⟨?_, ?_, ?_⟩
  · rw [getControls]
    rw [List.filter_congr (fun p _ => ?_), hmapu]
    simp [roomFilterOk, catFilterOk, jsStrTruthy, hr, hc, Bool.and_assoc]
  · intro inst hinst
    rw [getControls] at hinst ⊢
    obtain ⟨p, hp, rfl⟩ := List.mem_map.mp hinst
    have hp' := List.mem_filter.mp hp
    refine List.mem_map.mpr ⟨p, List.mem_filter.mpr ⟨hp'.1, ?_⟩, rfl⟩
    have h2 := hp'.2
    simp only [Bool.and_eq_true] at h2
    simp only [catFilterOk, jsStrTruthy, Bool.and_eq_true]
    exact ⟨h2.1, by simp⟩
  · rw [getControls]
    rw [List.filter_congr (fun p _ => ?_), hmapu]
    simp [roomFilterOk, catFilterOk, jsStrTruthy, hr]

/-- C7 witness: a two-control graph where only one control matches both
filters. -/
theorem getControlsFilter_witness :
    ((getControls
        (some ⟨[], [],
          [("u1", { type := "Switch", room := some "r1", cat := some "c1" }),
           ("u2", { type := "Switch", room := some "r1", cat := some "c2" })]⟩)
        [] (some "r1") (some "c1")).map (fun i => i.uuid) =
      ((⟨[], [],
          [("u1", { type := "Switch", room := some "r1", cat := some "c1" }),
           ("u2", { type := "Switch", room := some "r1", cat := some "c2" })]⟩ :
        StructureFile).controls.filter (fun p =>
          isSupported p.2 && (p.2.room == some "r1") &&
          (p.2.cat == some "c1"))).map (fun p => p.1)) ∧
    (∀ inst ∈ getControls
        (some ⟨[], [],
          [("u1", { type := "Switch", room := some "r1", cat := some "c1" }),
           ("u2", { type := "Switch", room := some "r1", cat := some "c2" })]⟩)
        [] (some "r1") (some "c1"),
      inst ∈ getControls
        (some ⟨[], [],
          [("u1", { type := "Switch", room := some "r1", cat := some "c1" }),
           ("u2", { type := "Switch", room := some "r1", cat := some "c2" })]⟩)
        [] (some "r1") none) ∧
    ((getControls
        (some ⟨[], [],
          [("u1", { type := "Switch", room := some "r1", cat := some "c1" }),
           ("u2", { type := "Switch", room := some "r1", cat := some "c2" })]⟩)
        [] (some "r1") none).map (fun i => i.uuid) =
      ((⟨[], [],
          [("u1", { type := "Switch", room := some "r1", cat := some "c1" }),
           ("u2", { type := "Switch", room := some "r1", cat := some "c2" })]⟩ :
        StructureFile).controls.filter (fun p =>
          isSupported p.2 && (p.2.room == some "r1"))).map (fun p => p.1)) :=
  getControlsFilter
    ⟨[], [],
      [("u1", { type := "Switch", room := some "r1", cat := some "c1" }),
       ("u2", { type := "Switch", room := some "r1", cat := some "c2" })]⟩
    [] "r1" "c1" (by decide) (by decide)

/-! Event router (the EventHandlerService variant with bound handler
references and cleanup(), plus the binary-uuid decoding of
utils bufferToUuid). -/

/-- A decoded binary event uuid buffer: data1 is optional (the guard
!buffer || !buffer.data1 bails out), the parts are already hex
strings. -/
structure BinBuf where
  data1 : Option String := none
  data2 : String := ""
  data3 : String := ""
  data4 : String := ""
deriving DecidableEq, Repr

/-- bufferToUuid: null without a buffer or a data1 part; otherwise the
four hex parts joined with hyphens. -/
def bufferToUuid : Option BinBuf → Option String
  | none => none
  | some b =>
    match b.data1 with
    | none => none
    | some d1 => some (d1 ++ "-" ++ b.data2 ++ "-" ++ b.data3 ++ "-" ++ b.data4)

/-- A push event: an opaque uuid buffer and optional value / text
payloads. -/
structure BinaryEvent where
  uuid : Option BinBuf := none
  value : JSVal := .undef
  text : JSVal := .undef
deriving DecidableEq, Repr

/-- EventHandlerService.processEvent: decode the uuid; if it decodes
(truthy) and a value is present, write it into the state cache. -/
def processEvent (sm : StateManager) (e : BinaryEvent) (now : Nat) :
    StateManager :=
  match bufferToUuid e.uuid with
  | some u => if u ≠ "" ∧ e.value ≠ .undef then sm.updateValue u e.value now else sm
  | none => sm

/-- EventHandlerService.processTextEvent. -/
def processTextEvent (sm : StateManager) (e : BinaryEvent) (now : Nat) :
    StateManager :=
  match bufferToUuid e.uuid with
  | some u => if u ≠ "" ∧ e.text ≠ .undef then sm.updateValue u e.text now else sm
  | none => sm

/-- The connection manager's event-emitter listener lists for the
event_value and event_text channels; listeners are identified by the
bound-handler identity of the service instance that registered them. -/
structure Emitter where
  valueListeners : List Nat := []
  textListeners : List Nat := []
deriving DecidableEq, Repr

/-- The event handler service: its identity (for its two bound handler
references) and its isListening flag. -/
structure EventRouter where
  instId : Nat
  isListening : Bool
deriving DecidableEq, Repr

/-- Construction: bind the two handlers once and startListening, which
subscribes them to event_value and event_text. -/
def EventRouter.construct (em : Emitter) (i : Nat) :
    Emitter × EventRouter :=
  ({ valueListeners := em.valueListeners ++ [i],
     textListeners := em.textListeners ++ [i] }, ⟨i, true⟩)

/-- cleanup(): when listening, unsubscribe the two stored bound
references (the emitter removes one matching listener each) and stop
listening. -/
def EventRouter.cleanup (em : Emitter) (h : EventRouter) :
    Emitter × EventRouter :=
  if h.isListening then
    ({ valueListeners := em.valueListeners.erase h.instId,
       textListeners := em.textListeners.erase h.instId },
     { h with isListening := false })
  else (em, h)

/-- One reconnect cycle: cleanup of the current service and
construction (re-subscription) of the next. -/
def routerCycle (st : Emitter × EventRouter) (newId : Nat) :
    Emitter × EventRouter :=
  let (em1, h1) := EventRouter.cleanup st.1 st.2
  let _ := h1
  EventRouter.construct em1 newId

/-- Delivering one value event: every subscribed handler processes it
against the shared state manager; the number of handler invocations is
returned alongside the final cache. -/
def deliverValueEvent (em : Emitter) (sm : StateManager) (e : BinaryEvent)
    (now : Nat) : StateManager × Nat :=
  (em.valueListeners.foldl (fun s _ => processEvent s e now) sm,
   em.valueListeners.length)

/-- The single-subscription invariant after any run of reconnect
cycles. -/
theorem routerCycles_single (id0 : Nat) (ids : List Nat) :
    ∃ i, (ids.foldl routerCycle (EventRouter.construct ⟨[], []⟩ id0)) =
      (⟨[i], [i]⟩, ⟨i, true⟩) := by
  induction ids using List.reverseRecOn with
  | nil => exact ⟨id0, rfl⟩
  | append_singleton rest j ih =>
    obtain ⟨i, hi⟩ := ih
    refine ⟨j, ?_⟩
    rw [List.foldl_append, hi]
    simp [routerCycle, EventRouter.cleanup, EventRouter.construct,
      List.erase_cons_head]

/-- C9: event-router deregistration.  The event router stores bound
references and cleanup() removes exactly them, so after any number of
reconnect cycles (cleanup, then re-construction) each channel holds
exactly one live handler, and a delivered value event with a decodable
uuid and a present value invokes updateValue exactly once — the cache
ends exactly as after a single processEvent, i.e. a single write of the
decoded uuid. -/
theorem eventRouterNoDuplicates (id0 : Nat) (ids : List Nat)
    (sm : StateManager) (e : BinaryEvent) (now : Nat) (u : String)
    (hdec : bufferToUuid e.uuid = some u) (hu : u ≠ "")
    (hval : e.value ≠ .undef) :
    (ids.foldl routerCycle
      (EventRouter.construct ⟨[], []⟩ id0)).1.valueListeners.length = 1 ∧
    (ids.foldl routerCycle
      (EventRouter.construct ⟨[], []⟩ id0)).1.textListeners.length = 1 ∧
    (deliverValueEvent
      (ids.foldl routerCycle (EventRouter.construct ⟨[], []⟩ id0)).1
      sm e now).2 = 1 ∧
    (deliverValueEvent
      (ids.foldl routerCycle (EventRouter.construct ⟨[], []⟩ id0)).1
      sm e now).1 = sm.updateValue u e.value now := by
  obtain ⟨i, hi⟩ := routerCycles_single id0 ids
  rw [hi]
  refine ⟨rfl, rfl, rfl, ?_⟩
  rw [deliverValueEvent]
  show processEvent sm e now = _
  rw [processEvent, hdec]
  show (if u ≠ "" ∧ e.value ≠ JSVal.undef then sm.updateValue u e.value now
    else sm) = _
  rw [if_pos ⟨hu, hval⟩]

/-- C9 witness: two reconnect cycles, then one value event for a
decodable uuid writes the cache exactly once. -/
theorem eventRouterNoDuplicates_witness :
    (([7, 9].foldl routerCycle
      (EventRouter.construct ⟨[], []⟩ 1)).1.valueListeners.length = 1 ∧
    ([7, 9].foldl routerCycle
      (EventRouter.construct ⟨[], []⟩ 1)).1.textListeners.length = 1 ∧
    (deliverValueEvent
      ([7, 9].foldl routerCycle (EventRouter.construct ⟨[], []⟩ 1)).1
      ⟨[[]], [], 0⟩ ⟨some ⟨some "0f86a2fe", "0378", "3e15", "ffff"⟩,
        .num 21, .undef⟩ 5).2 = 1 ∧
    (deliverValueEvent
      ([7, 9].foldl routerCycle (EventRouter.construct ⟨[], []⟩ 1)).1
      ⟨[[]], [], 0⟩ ⟨some ⟨some "0f86a2fe", "0378", "3e15", "ffff"⟩,
        .num 21, .undef⟩ 5).1 =
      (⟨[[]], [], 0⟩ : StateManager).updateValue
        "0f86a2fe-0378-3e15-ffff" (.num 21) 5) :=
  eventRouterNoDuplicates 1 [7, 9] ⟨[[]], [], 0⟩
    ⟨some ⟨some "0f86a2fe", "0378", "3e15", "ffff"⟩, .num 21, .undef⟩ 5
    "0f86a2fe-0378-3e15-ffff" (by decide) (by decide) (by decide)

end Loxone
